import Mathlib

/-!
Verification of the zellij-mcp addressing/arbitration core.

This file gives a shallow embedding, in Lean 4, of the pure/state-passing
fragments of the repository that the specification's claims are about:

* `parse_layout_panes` (src/server.py, lines 832-990): the layout-dump parser;
* `find_pane_by_name` (src/server.py, lines 993-1028): the pane locator;
* `LayoutCache` (src/server.py, lines 698-731) and the cache discipline of
  `zellij_action` (src/server.py, lines 1192-1221);
* the focus-cycling step of `_with_pane_focus_impl` (src/server.py,
  lines 1103-1168);
* `SessionState.unregister_pane` (src/server.py, lines 812-820);
* `ZellijDaemon._read_pane` (src/zellij-daemon.py, lines 173-206) together
  with `_strip_ansi` (lines 168-171).

Python strings are modelled as `List Char` (with `String` at the interfaces);
Python's `re` searches that the code performs are modelled by hand-written
scanners whose behaviour on every input agrees with the leftmost-match
semantics of the concrete patterns used by the code; Python `dict`s are
modelled as functions into `Option`; wall-clock time is an explicit `Rat`
parameter; subprocess outcomes are explicit parameters.
-/

/-- Python's `str.strip`/`\s` whitespace set: space, tab, newline, carriage
return, vertical tab, form feed. -/
def isPySpace (c : Char) : Bool :=
  c = ' ' || c = '\t' || c = '\n' || c = '\r' || c = '\x0b' || c = '\x0c'

/-- Python `str.strip()`: remove leading and trailing whitespace. -/
def pyStrip (l : List Char) : List Char :=
  ((l.dropWhile isPySpace).reverse.dropWhile isPySpace).reverse

/-- Python `text.split('\n')` on character lists. -/
def splitLines : List Char → List (List Char)
  | [] => [[]]
  | c :: rest =>
    if c = '\n' then [] :: splitLines rest
    else
      match splitLines rest with
      | [] => [[c]]
      | h :: t => (c :: h) :: t

/-- Python's substring test `pat in l` (contiguous occurrence). -/
def isSubOf (pat : List Char) : List Char → Bool
  | [] => pat.isEmpty
  | l@(_ :: rest) => pat.isPrefixOf l || isSubOf pat rest

/-- Lowercasing used to model Python `str.lower()` (the strings involved are
ASCII, where the two agree). -/
def lowerChars (l : List Char) : List Char := l.map Char.toLower

/-- One attempt of the regex `tab\s+name="([^"]+)"` followed by the (broken,
see below) optional group `(focus=true)?` at a fixed start position.

The code's pattern is `tab\s+name="([^"]+)".*?(focus=true)?`.  Because `.*?`
is lazy and the trailing group optional, Python's engine matches `.*?` empty
and the optional group succeeds only when the literal text `focus=true`
begins immediately after the closing quote of the name; otherwise group 2 is
`None`.  The Boolean returned here is exactly "group 2 matched". -/
def tabMatchAt (l : List Char) : Option (List Char × Bool) :=
  if ("tab".toList).isPrefixOf l then
    let r1 := l.drop 3
    let ws := r1.takeWhile isPySpace
    if ws.isEmpty then none
    else
      let r2 := r1.drop ws.length
      if ("name=\"".toList).isPrefixOf r2 then
        let r3 := r2.drop 6
        let nm := r3.takeWhile (fun c => c ≠ '"')
        if nm.isEmpty then none
        else
          match r3.drop nm.length with
          | '"' :: r4 => some (nm, ("focus=true".toList).isPrefixOf r4)
          | _ => none
      else none
  else none

/-- `re.search(r'tab\s+name="([^"]+)".*?(focus=true)?', line)`: leftmost
start position at which `tabMatchAt` succeeds. -/
def tabSearch : List Char → Option (List Char × Bool)
  | [] => none
  | l@(_ :: rest) =>
    match tabMatchAt l with
    | some r => some r
    | none => tabSearch rest

/-- `re.search(key ++ '([^"]+)"', line)` for a literal `key` ending in `"`,
e.g. `command="([^"]+)"`: leftmost occurrence of the key followed by a
non-empty run of non-quote characters and a closing quote. -/
def searchQuoted (key : List Char) : List Char → Option (List Char)
  | [] => none
  | l@(_ :: rest) =>
    if key.isPrefixOf l then
      let r := l.drop key.length
      let content := r.takeWhile (fun c => c ≠ '"')
      if !content.isEmpty && (r.drop content.length).head? = some '"' then
        some content
      else searchQuoted key rest
    else searchQuoted key rest

/-- `re.search(r'args\s+(.+)', stripped)`: leftmost occurrence of `args`
followed by at least one whitespace character; the group is the rest of the
line, or — when only whitespace follows and at least two whitespace
characters are available for `\s+` to give one back to `.+` — the final
whitespace character. -/
def argsSearch : List Char → Option (List Char)
  | [] => none
  | l@(_ :: rest) =>
    if ("args".toList).isPrefixOf l then
      let r := l.drop 4
      let ws := r.takeWhile isPySpace
      if ws.isEmpty then argsSearch rest
      else
        let r2 := r.drop ws.length
        if !r2.isEmpty then some r2
        else if 2 ≤ ws.length then some (ws.drop (ws.length - 1))
        else argsSearch rest
    else argsSearch rest

/-- `re.match(r'\s*pane\b', stripped)` on an already-stripped line: the line
starts with `pane` followed by a word boundary. -/
def isPaneStart (l : List Char) : Bool :=
  match l with
  | 'p' :: 'a' :: 'n' :: 'e' :: rest =>
    match rest with
    | [] => true
    | c :: _ => !(c.isAlphanum || c = '_')
  | _ => false

/-- A pane descriptor as produced by `parse_layout_panes` (a Python dict in
the source; optional keys become `Option` fields). -/
structure Pane where
  tab : Option String
  tab_index : Nat
  tab_focused : Bool
  pane_index : Nat
  floating : Bool
  command : Option String := none
  name : Option String := none
  size : Option String := none
  args : Option String := none
  focused : Bool := false
  cwd : Option String := none
deriving Repr, DecidableEq

/-- The scanner state of the `for line in layout_text.split('\n')` loop of
`parse_layout_panes` (src/server.py, lines 834-842). -/
structure PState where
  panes : List Pane
  current_tab : Option String
  current_tab_index : Nat
  tab_focused : Bool
  pane_index_in_tab : Nat
  floating_depth : Int
  current_pane : Option Pane
  pane_brace_depth : Int
  swap_layout_depth : Int
deriving Repr, DecidableEq

def initPState : PState :=
  { panes := [], current_tab := none, current_tab_index := 0,
    tab_focused := false, pane_index_in_tab := 0, floating_depth := 0,
    current_pane := none, pane_brace_depth := 0, swap_layout_depth := 0 }

/-- The pane dict built for a top-level pane line (src/server.py,
lines 948-978): attributes are extracted from the raw `line`. -/
def topPaneInfo (line : List Char) (tab : Option String) (ti : Nat)
    (tf : Bool) (pi_ : Nat) (fl : Bool) : Pane :=
  { tab := tab, tab_index := ti, tab_focused := tf, pane_index := pi_,
    floating := fl,
    command := (searchQuoted ("command=\"".toList) line).map String.mk,
    name := (searchQuoted ("name=\"".toList) line).map String.mk,
    size := (searchQuoted ("size=\"".toList) line).map String.mk,
    focused := isSubOf ("focus=true".toList) line && tf,
    cwd := (searchQuoted ("cwd=\"".toList) line).map String.mk }

/-- The pane dict built for a nested pane line inside an open pane block
(src/server.py, lines 910-935): attributes are extracted from `stripped`
and no `cwd` is extracted. -/
def nestedPaneInfo (stripped : List Char) (tab : Option String) (ti : Nat)
    (tf : Bool) (pi_ : Nat) (fl : Bool) : Pane :=
  { tab := tab, tab_index := ti, tab_focused := tf, pane_index := pi_,
    floating := fl,
    command := (searchQuoted ("command=\"".toList) stripped).map String.mk,
    name := (searchQuoted ("name=\"".toList) stripped).map String.mk,
    size := (searchQuoted ("size=\"".toList) stripped).map String.mk,
    focused := isSubOf ("focus=true".toList) stripped && tf }

/-- One iteration of the loop body of `parse_layout_panes` (src/server.py,
lines 844-988), in the source's branch order: swap-layout sections, the
swap/template depth tracker, `new_tab_template`, `floating_panes`, the
floating depth tracker, tab headers, content inside an open pane block
(args extraction, nested panes, block close), and finally top-level pane
lines. -/
def pstep (st : PState) (line : List Char) : PState :=
  let stripped := pyStrip line
  let opens : Int := (stripped.count '\x7b' : Int)
  let closes : Int := (stripped.count '\x7d' : Int)
  if ("swap_tiled_layout".toList).isPrefixOf stripped
      || ("swap_floating_layout".toList).isPrefixOf stripped then
    { st with swap_layout_depth := opens }
  else if 0 < st.swap_layout_depth then
    let d := st.swap_layout_depth + opens - closes
    { st with swap_layout_depth := if d ≤ 0 then 0 else d }
  else if ("new_tab_template".toList).isPrefixOf stripped then
    { st with swap_layout_depth := opens }
  else if ("floating_panes".toList).isPrefixOf stripped
      && st.current_pane = none then
    { st with floating_depth := opens }
  else if 0 < st.floating_depth && st.current_pane = none
      && !isPaneStart stripped then
    let d := st.floating_depth + opens - closes
    { st with floating_depth := if d ≤ 0 then 0 else d }
  else
    let in_floating := 0 < st.floating_depth
    if (tabSearch line).isSome && st.current_pane = none then
      match tabSearch line with
      | some (nm, foc) =>
        { st with current_tab := some (String.mk nm),
                  current_tab_index := st.current_tab_index + 1,
                  tab_focused := foc, pane_index_in_tab := 0 }
      | none => st
    else
      match st.current_pane with
      | some cp =>
        let pbd := st.pane_brace_depth + opens - closes
        let cp' :=
          match argsSearch stripped with
          | some a => { cp with args := some (String.mk a) }
          | none => cp
        let isNested := isPaneStart stripped
          && !isSubOf ("borderless=true".toList) stripped
        let panes' :=
          if isNested then
            st.panes ++ [nestedPaneInfo stripped st.current_tab
              st.current_tab_index st.tab_focused st.pane_index_in_tab
              in_floating]
          else st.panes
        let idx' := if isNested then st.pane_index_in_tab + 1
                    else st.pane_index_in_tab
        if pbd ≤ 0 then
          { st with panes := panes' ++ [cp'], current_pane := none,
                    pane_brace_depth := 0, pane_index_in_tab := idx' }
        else
          { st with panes := panes', current_pane := some cp',
                    pane_brace_depth := pbd, pane_index_in_tab := idx' }
      | none =>
        if isPaneStart stripped then
          let base := topPaneInfo line st.current_tab st.current_tab_index
            st.tab_focused st.pane_index_in_tab in_floating
          let idx' := st.pane_index_in_tab + 1
          if stripped.contains '\x7b' then
            let pbd := opens - closes
            if 0 < pbd then
              { st with current_pane := some base, pane_brace_depth := pbd,
                        pane_index_in_tab := idx' }
            else
              { st with panes := st.panes ++ [base],
                        pane_brace_depth := pbd, pane_index_in_tab := idx' }
          else
            { st with panes := st.panes ++ [base], pane_index_in_tab := idx' }
        else st

/-- Run the scanner over a list of already-split lines. -/
def parseLinesSt (st : PState) (ls : List (List Char)) : PState :=
  ls.foldl pstep st

/-- `parse_layout_panes` (src/server.py, lines 832-990). -/
def parse_layout_panes (layout_text : String) : List Pane :=
  (parseLinesSt initPState (splitLines layout_text.toList)).panes

/-- `PaneInfo` (src/server.py, lines 741-752): a registered pane.  The
`created_at` timestamp is an explicit rational. -/
structure PaneInfo where
  name : String
  tab : String
  command : Option String := none
  cwd : Option String := none
  created_at : Rat := 0
  repl_type : Option String := none
  pane_index : Option Nat := none
  floating : Bool := false
  pane_id : Option Nat := none
deriving Repr, DecidableEq

/-- The first loop of `find_pane_by_name` (src/server.py, lines 999-1009):
for each pane in scan order, first the case-insensitive substring test of
the name against the pane's `name`/`command`, then the
`ZELLIJ_PANE_NAME=<name>` marker test against its `args`. -/
def fpScan (nameLower markerLower : List Char) : List Pane → Option Pane
  | [] => none
  | p :: rest =>
    let pane_name := lowerChars (p.name.getD "").toList
    let pane_cmd := lowerChars (p.command.getD "").toList
    let pane_args := lowerChars (p.args.getD "").toList
    if isSubOf nameLower pane_name || isSubOf nameLower pane_cmd then some p
    else if isSubOf markerLower pane_args then some p
    else fpScan nameLower markerLower rest

/-- The fallback loop of `find_pane_by_name` (src/server.py,
lines 1017-1026): same tab (or a registered tab of "current"), same
floating flag, equal ordinal. -/
def fpFallback (reg_tab : String) (reg_index : Nat) (is_floating : Bool) :
    List Pane → Option Pane
  | [] => none
  | p :: rest =>
    if (p.tab == some reg_tab || reg_tab == "current")
        && p.floating == is_floating && p.pane_index == reg_index then
      some p
    else fpFallback reg_tab reg_index is_floating rest

/-- `find_pane_by_name` (src/server.py, lines 993-1028). -/
def find_pane_by_name (panes : List Pane) (name : String)
    (registered : Option PaneInfo) : Option Pane :=
  let nameLower := lowerChars name.toList
  let markerLower := lowerChars ("ZELLIJ_PANE_NAME=" ++ name).toList
  match fpScan nameLower markerLower panes with
  | some p => some p
  | none =>
    match registered with
    | some rp =>
      match rp.pane_index with
      | some ri => fpFallback rp.tab ri rp.floating panes
      | none => none
    | none => none

/-- The locator as the specification words it (for comparison with
`find_pane_by_name`): strategies tried in the fixed order "marker match
over all panes first, then substring match over all panes, then the
ordinal fallback". -/
def locate_spec_order (panes : List Pane) (name : String)
    (registered : Option PaneInfo) : Option Pane :=
  let nameLower := lowerChars name.toList
  let markerLower := lowerChars ("ZELLIJ_PANE_NAME=" ++ name).toList
  match panes.find? (fun p => isSubOf markerLower
      (lowerChars (p.args.getD "").toList)) with
  | some p => some p
  | none =>
    match panes.find? (fun p =>
        isSubOf nameLower (lowerChars (p.name.getD "").toList)
        || isSubOf nameLower (lowerChars (p.command.getD "").toList)) with
    | some p => some p
    | none =>
      match registered with
      | some rp =>
        match rp.pane_index with
        | some ri => fpFallback rp.tab ri rp.floating panes
        | none => none
      | none => none

/-- Combined per-pane text test (substring on name/command or marker on
args), used to characterise the single scan the code actually performs. -/
def textHit (name : String) (p : Pane) : Bool :=
  isSubOf (lowerChars name.toList) (lowerChars (p.name.getD "").toList)
  || isSubOf (lowerChars name.toList) (lowerChars (p.command.getD "").toList)
  || isSubOf (lowerChars ("ZELLIJ_PANE_NAME=" ++ name).toList)
      (lowerChars (p.args.getD "").toList)

/-- Per-pane ordinal-fallback test, as the fallback loop applies it. -/
def ordHit (rp : PaneInfo) (ri : Nat) (p : Pane) : Bool :=
  (p.tab == some rp.tab || rp.tab == "current")
  && p.floating == rp.floating && p.pane_index == ri

/-- `_resolve_session_key` (src/server.py, lines 687-695); `env` models
`os.environ.get("ZELLIJ_SESSION_NAME")`.  Python truthiness: `None` and
the empty string both fall through. -/
def resolve_session_key (session env : Option String) : String :=
  if session.getD "" ≠ "" then session.getD ""
  else if env.getD "" ≠ "" then env.getD ""
  else "_default"

/-- The `LayoutCache._cache` dict (src/server.py, line 702): session key to
(timestamp, layout). -/
abbrev LCache := String → Option (Rat × String)

def lcEmpty : LCache := fun _ => none

/-- `LayoutCache.get` (src/server.py, lines 706-714), with the current time
an explicit parameter. -/
def layoutCache_get (c : LCache) (ttl now : Rat) (session env : Option String) :
    Option String :=
  match c (resolve_session_key session env) with
  | some (ts, layout) => if now - ts < ttl then some layout else none
  | none => none

/-- `LayoutCache.set` (src/server.py, lines 716-720). -/
def layoutCache_set (c : LCache) (now : Rat) (layout : String)
    (session env : Option String) : LCache :=
  fun k => if k = resolve_session_key session env then some (now, layout) else c k

/-- `LayoutCache.invalidate` (src/server.py, lines 722-726). -/
def layoutCache_invalidate (c : LCache) (session env : Option String) : LCache :=
  fun k => if k = resolve_session_key session env then none else c k

/-- The default TTL of `LayoutCache.__init__` (src/server.py, line 701):
0.5 seconds. -/
def defaultTTL : Rat := 1 / 2

/-- A mutation of the cache (a `set` or `invalidate` call), with the wall
time of a `set` recorded explicitly. -/
inductive CacheOp where
  | set (now : Rat) (layout : String) (session env : Option String)
  | invalidate (session env : Option String)
deriving Repr, DecidableEq

def cacheStep (c : LCache) : CacheOp → LCache
  | CacheOp.set now layout session env => layoutCache_set c now layout session env
  | CacheOp.invalidate session env => layoutCache_invalidate c session env

def cacheExec (c : LCache) (ops : List CacheOp) : LCache :=
  ops.foldl cacheStep c

/-- Outcome of `run_zellij` (src/server.py, lines 1171-1189). -/
structure RunResult where
  success : Bool
  stdout : String := ""
  stderr : String := ""
deriving Repr, DecidableEq

/-- `LAYOUT_MUTATING_ACTIONS` (src/server.py, lines 1193-1198). -/
def LAYOUT_MUTATING_ACTIONS : List String :=
  ["new-pane", "close-pane", "new-tab", "close-tab", "rename-pane",
   "rename-tab", "move-pane", "move-pane-backwards", "toggle-floating-panes",
   "toggle-pane-embed-or-floating", "focus-next-pane", "focus-previous-pane",
   "move-focus", "go-to-tab", "go-to-tab-name", "go-to-next-tab",
   "go-to-previous-tab"]

/-- `zellij_action` (src/server.py, lines 1201-1221), restricted to its
effect on the layout cache: `action` is `args[0]`, `runResult` stands for
the `run_zellij` subprocess outcome, and the returned cache reflects the
dump-layout read-through, the dump-layout store, and the mutation
invalidation, in the source's order. -/
def zellij_action_cache (cache : LCache) (now : Rat) (action : String)
    (capture : Bool) (session env : Option String) (runResult : RunResult) :
    RunResult × LCache :=
  let cached : Option String :=
    if action = "dump-layout" && capture then
      layoutCache_get cache defaultTTL now session env
    else none
  match cached with
  | some l => ({ success := true, stdout := l, stderr := "" }, cache)
  | none =>
    let result := runResult
    let cache1 :=
      if action = "dump-layout" && capture && result.success then
        layoutCache_set cache now result.stdout session env
      else cache
    let cache2 :=
      if LAYOUT_MUTATING_ACTIONS.contains action then
        layoutCache_invalidate cache1 session env
      else cache1
    (result, cache2)

/-- The `move_tab` branch of `call_tool` (src/server.py, lines 2041-2042):
it issues `zellij_action("move-tab", direction, session=session)`, so the
action name seen by the cache logic is `"move-tab"` and `capture` is the
default `False`.  The direction argument does not reach the cache logic. -/
def call_tool_move_tab (cache : LCache) (now : Rat) (_direction : String)
    (session env : Option String) (runResult : RunResult) :
    RunResult × LCache :=
  zellij_action_cache cache now "move-tab" false session env runResult

/-- Events observable from `_with_pane_focus_impl`: zellij action commands
issued and the explicit cache invalidation of line 1153. -/
inductive FEvent where
  | act (action : String) (arg : Option String)
  | cacheInvalidate
deriving Repr, DecidableEq

/-- The result dict of `_with_pane_focus_impl`, restricted to the fields
the claims are about. -/
structure FocusOutcome where
  success : Bool
  error : Option String := none
  available : List (Option String) := []
deriving Repr, DecidableEq

/-- The focus-cycling step of `_with_pane_focus_impl` (src/server.py,
lines 1133-1153): when the target is not already marked focused, count the
command-bearing non-plugin panes of the target's tab, issue
`pane_index % num_panes` focus-next-pane commands (num_panes falling back
to 1 when the count is empty), and invalidate the layout cache. -/
def cycleStepEvents (panes : List Pane) (target : Pane) : List FEvent :=
  if !target.focused then
    let tab_panes := panes.filter (fun p =>
      p.tab == target.tab && !(p.command.getD "").isEmpty
      && !isSubOf ("plugin".toList) (p.command.getD "").toList)
    let target_index := target.pane_index
    let num_panes := if tab_panes.isEmpty then 1 else tab_panes.length
    let cycles := if 0 < num_panes then target_index % num_panes else 0
    List.replicate cycles (FEvent.act "focus-next-pane" none)
      ++ [FEvent.cacheInvalidate]
  else []

/-- The tab-restore step of `_with_pane_focus_impl` (src/server.py,
lines 1120-1125 and 1164-1166): switch back to the tab of the first
descriptor marked focused, when there is one, it is truthy and it differs
from the target's tab. -/
def restoreTabEvents (panes : List Pane) (target : Pane) : List FEvent :=
  match (match panes.find? (fun p => p.focused) with
         | some p => p.tab
         | none => none) with
  | some ot =>
    if ot ≠ "" && !(some ot == target.tab) then
      [FEvent.act "go-to-tab-name" (some ot)]
    else []
  | none => []

/-- `_with_pane_focus_impl` (src/server.py, lines 1103-1168).  `dumpResult`
is the stdout of a successful `dump-layout` (or `none` on failure),
`registered` is `state.panes.get(pane_name)`, `tabSwitchOk` is the success
of the `go-to-tab-name` command when one is issued, and `actionResult` is
the outcome of the caller-supplied action (exceptions already converted to
a failure result, as lines 1156-1162 do).  Returns the result together
with the ordered list of issued commands and explicit cache
invalidations. -/
def with_pane_focus_impl (dumpResult : Option String)
    (registered : Option PaneInfo) (pane_name : String) (tabSwitchOk : Bool)
    (actionResult : FocusOutcome) : FocusOutcome × List FEvent :=
  let ev0 := [FEvent.act "dump-layout" none]
  match dumpResult with
  | none => ({ success := false, error := some "Failed to get layout" }, ev0)
  | some txt =>
    let panes := parse_layout_panes txt
    match find_pane_by_name panes pane_name registered with
    | none =>
      ({ success := false, error := some ("Pane '" ++ pane_name ++ "' not found"),
         available := panes.map (fun p =>
           if (p.name.getD "") ≠ "" then p.name else p.command) }, ev0)
    | some target =>
      let needTab := !target.tab_focused && !(target.tab.getD "").isEmpty
      if needTab && !tabSwitchOk then
        ({ success := false, error := some "Failed to switch tab" },
         ev0 ++ [FEvent.act "go-to-tab-name" target.tab])
      else
        let ev1 := ev0 ++
          (if needTab then [FEvent.act "go-to-tab-name" target.tab] else [])
        (actionResult,
         ev1 ++ cycleStepEvents panes target ++ restoreTabEvents panes target)

/-- The number of focus-next-pane commands in a trace. -/
def countFocusNext (evs : List FEvent) : Nat :=
  (evs.filter (fun e => e == FEvent.act "focus-next-pane" none)).length

/-- The cycle count the specification claims: the target's ordinal modulo
the count of non-plugin panes in the target's tab (a pane counts as a
plugin pane only when its command mentions "plugin"; anonymous shell panes
are non-plugin panes). -/
def specClaimCycles (panes : List Pane) (target : Pane) : Nat :=
  target.pane_index % (panes.filter (fun p =>
    p.tab == target.tab
    && !isSubOf ("plugin".toList) (p.command.getD "").toList)).length

/-- The cycle count the code computes (src/server.py, lines 1136-1148):
only panes with a truthy command not containing "plugin" are counted, and
an empty count falls back to 1. -/
def codeCycles (panes : List Pane) (target : Pane) : Nat :=
  let tab_panes := panes.filter (fun p =>
    p.tab == target.tab && !(p.command.getD "").isEmpty
    && !isSubOf ("plugin".toList) (p.command.getD "").toList)
  target.pane_index % (if tab_panes.isEmpty then 1 else tab_panes.length)

/-- `SSHSession` (src/server.py, lines 755-761). -/
structure SSHSession where
  name : String
  host : String
  pane_name : String
  connected_at : Rat := 0
deriving Repr, DecidableEq

/-- `TrackedJob` (src/server.py, lines 764-772). -/
structure TrackedJob where
  job_id : String
  scheduler : String
  ssh_name : String
  script : String
  submitted_at : Rat := 0
  status : String := "PENDING"
deriving Repr, DecidableEq

/-- `SpawnedAgent` (src/server.py, lines 775-785). -/
structure SpawnedAgent where
  name : String
  pane_name : String
  task : String
  prompt : String
  model : String := "claude-sonnet-4-22k-0514"
  status : String := "running"
  spawned_at : Rat := 0
  tab : String := "agents"
deriving Repr, DecidableEq

/-- `SessionState` (src/server.py, lines 788-798): each registry dict is
modelled as a function into `Option`. -/
structure SState where
  panes : String → Option PaneInfo
  ssh_sessions : String → Option SSHSession
  tracked_jobs : String → Option TrackedJob
  pane_groups : String → Option (List String)
  pane_cursors : String → Option Int
  spawned_agents : String → Option SpawnedAgent

/-- `SessionState.unregister_pane` (src/server.py, lines 812-820): if the
name is registered, delete its pane entry and (when present) its tail-read
cursor, returning True; otherwise return False.  Deleting an absent cursor
key and leaving it absent are the same map, so the conditional delete of
the source is the unconditional update below. -/
def unregister_pane (st : SState) (name : String) : Bool × SState :=
  match st.panes name with
  | some _ =>
    (true,
     { st with
       panes := fun k => if k = name then none else st.panes k,
       pane_cursors := fun k => if k = name then none else st.pane_cursors k })
  | none => (false, st)

/-- One attempt of the regex `\x1b\[[0-9;]*[a-zA-Z]|\x1b\].*?\x07` at a
position just after an ESC character: returns the number of characters the
match consumes after the ESC, or `none`.  The first alternative needs `[`,
a run of digits/semicolons and an ASCII letter; the second needs `]`, then
the lazy `.*?` reaches the first BEL, failing if a newline (which `.` does
not match) comes first. -/
def ansiMatchLen (rest : List Char) : Option Nat :=
  match rest with
  | '[' :: r2 =>
    let run := r2.takeWhile (fun d => d.isDigit || d = ';')
    match (r2.drop run.length).head? with
    | some a => if a.isAlpha then some (run.length + 2) else none
    | none => none
  | ']' :: r2 =>
    let seg := r2.takeWhile (fun d => d ≠ '\x07' && d ≠ '\n')
    match (r2.drop seg.length).head? with
    | some b => if b = '\x07' then some (seg.length + 2) else none
    | none => none
  | _ => none

/-- Worker for `stripAnsi`, structurally recursive on a fuel argument: each
step consumes at least one input character, so fuel equal to the input
length always suffices and the fuel-exhausted branch is unreachable. -/
def stripAnsiGo : Nat → List Char → List Char
  | _, [] => []
  | 0, l => l
  | fuel + 1, c :: rest =>
    if c = '\x1b' then
      match ansiMatchLen rest with
      | some k => stripAnsiGo fuel (rest.drop k)
      | none => c :: stripAnsiGo fuel rest
    else c :: stripAnsiGo fuel rest

/-- `ZellijDaemon._strip_ansi` (src/zellij-daemon.py, lines 168-171):
`re.sub` deletes every leftmost match of the pattern and resumes scanning
after it. -/
def stripAnsi (l : List Char) : List Char :=
  stripAnsiGo l.length l

/-- Python `'\n'.join(lines)` on character lists. -/
def joinNL : List (List Char) → List Char
  | [] => []
  | [l] => l
  | l :: rest => l ++ '\n' :: joinNL rest

/-- A pane record as reported by the control-plane `list` command consumed
by `_read_pane` (src/zellij-daemon.py, lines 177-183). -/
structure BridgePane where
  id : Nat
  is_focused : Bool
  is_plugin : Bool
deriving Repr, DecidableEq

/-- The `original_focused` computation of `_read_pane` (src/zellij-daemon.py,
lines 178-183): id of the first focused non-plugin pane. -/
def firstFocusedNonPlugin (data : List BridgePane) : Option Nat :=
  match data.find? (fun p => p.is_focused && !p.is_plugin) with
  | some p => some p.id
  | none => none

/-- The daemon's response dict, restricted to the fields `_read_pane`
produces. -/
structure DaemonResp where
  success : Bool
  content : Option String := none
  pane_id : Option Nat := none
  error : Option String := none
deriving Repr, DecidableEq

/-- Control-plane calls and screen dumps issued by `_read_pane`, in order. -/
inductive DEvent where
  | plugin_list
  | plugin_focus (pane_id : Nat)
  | dump_screen (full : Bool)
deriving Repr, DecidableEq

/-- `ZellijDaemon._read_pane` (src/zellij-daemon.py, lines 173-206).
`listResult` is the plugin `list` response (`none` when it did not
succeed), `focusResult` the plugin response to focusing the target,
`screen` the text `dump-screen` produced.  Returns the response and the
ordered control-plane/dump events. -/
def read_pane (listResult : Option (List BridgePane))
    (focusResult : DaemonResp) (screen : String) (pane_id : Nat)
    (full : Bool) (tail : Option Int) : DaemonResp × List DEvent :=
  let original_focused : Option Nat :=
    match listResult with
    | some data => firstFocusedNonPlugin data
    | none => none
  let ev0 := [DEvent.plugin_list, DEvent.plugin_focus pane_id]
  if !focusResult.success then
    (focusResult, ev0)
  else
    let content0 := stripAnsi screen.toList
    let content :=
      match tail with
      | some t =>
        if 0 < t then
          let lines := splitLines content0
          joinNL (lines.drop (lines.length - t.toNat))
        else content0
      | none => content0
    let restore :=
      match original_focused with
      | some o => if o ≠ pane_id then [DEvent.plugin_focus o] else []
      | none => []
    ({ success := true, content := some (String.mk content),
       pane_id := some pane_id },
     ev0 ++ [DEvent.dump_screen full] ++ restore)

/-- A pane declaration for the structured dumps quantified over in the
parser round-trip property: an optional command and an optional display
name. -/
structure PaneSpec where
  command : Option String := none
  name : Option String := none
deriving Repr, DecidableEq

/-- A tab with its top-level panes. -/
structure TabSpec where
  name : String
  panes : List PaneSpec
deriving Repr, DecidableEq

/-- Rendered dump line for one top-level pane declaration:
`pane( command="...")?( name="...")?`. -/
def renderPaneLine (p : PaneSpec) : List Char :=
  "pane".toList
  ++ (match p.command with
      | some c => " command=\"".toList ++ c.toList ++ ['"']
      | none => [])
  ++ (match p.name with
      | some n => " name=\"".toList ++ n.toList ++ ['"']
      | none => [])

/-- Rendered dump lines for one tab: a `tab name="..." {` header, one line
per pane, and the closing brace. -/
def renderTabLines (t : TabSpec) : List (List Char) :=
  ("tab name=\"".toList ++ t.name.toList ++ ['"', ' ', '\x7b'])
    :: (t.panes.map renderPaneLine ++ [['\x7d']])

/-- Rendered dump: a `layout {` wrapper around the tabs. -/
def renderDumpLines (ts : List TabSpec) : List (List Char) :=
  "layout \x7b".toList :: ((ts.map renderTabLines).flatten ++ [['\x7d']])

/-- Characters that keep a rendered fragment inert for the scanner: no
quote, no braces, no newline. -/
def goodChars (l : List Char) : Bool :=
  l.all (fun c => c ≠ '"' && c ≠ '\x7b' && c ≠ '\x7d' && c ≠ '\n')

/-- Well-formedness of a pane declaration: its text fragments are inert and
the rendered line does not spuriously match the tab-header regex. -/
def goodPaneSpec (p : PaneSpec) : Bool :=
  (match p.command with
   | some c => goodChars c.toList && !c.toList.isEmpty
   | none => true)
  && (match p.name with
      | some n => goodChars n.toList && !n.toList.isEmpty
      | none => true)
  && (tabSearch (renderPaneLine p) == none)

/-- Well-formedness of a tab: a non-empty inert name and well-formed
panes. -/
def goodTabSpec (t : TabSpec) : Bool :=
  goodChars t.name.toList && !t.name.toList.isEmpty
  && t.panes.all goodPaneSpec

/-- The (tab ordinal, pane ordinal) pairs the round-trip property expects:
tab `i` (1-based, in dump order) contributes ordinals `0..count-1` in
first-seen order. -/
def expectedIndexPairs : Nat → List TabSpec → List (Nat × Nat)
  | _, [] => []
  | i, t :: rest =>
    (List.range t.panes.length).map (fun j => (i + 1, j))
      ++ expectedIndexPairs (i + 1) rest

/-- A line (or nested block) inside a swap-layout / new-tab-template
section; `plain` lines may be anything brace-balanced, including pane
declarations. -/
inductive SwapNode where
  | plain (s : String)
  | block (header : String) (children : List SwapNode)
deriving Repr

mutual

/-- Rendered lines of one node inside a template section. -/
def renderNode : SwapNode → List (List Char)
  | SwapNode.plain s => [s.toList]
  | SwapNode.block h cs =>
    (h.toList ++ [' ', '\x7b']) :: (renderNodesList cs ++ [['\x7d']])

/-- Rendered lines of a list of nodes. -/
def renderNodesList : List SwapNode → List (List Char)
  | [] => []
  | n :: rest => renderNode n ++ renderNodesList rest

end

/-- Does a stripped line start a swap-layout section (the parser's first
branch fires on such lines even while skipping)? -/
def swapPre (l : List Char) : Bool :=
  ("swap_tiled_layout".toList).isPrefixOf l
    || ("swap_floating_layout".toList).isPrefixOf l

mutual

/-- Brace discipline inside a template section: plain lines are
brace-balanced, block headers are brace-free, no embedded newlines, and no
line opens a new swap section of its own. -/
def goodNode : SwapNode → Bool
  | SwapNode.plain s =>
    (s.toList.count '\x7b' == s.toList.count '\x7d')
      && !s.toList.contains '\n'
      && !swapPre (pyStrip s.toList)
  | SwapNode.block h cs =>
    (h.toList.count '\x7b' == 0) && (h.toList.count '\x7d' == 0)
      && !h.toList.contains '\n'
      && !swapPre (pyStrip (h.toList ++ [' ', '\x7b']))
      && goodNodes cs

/-- Brace discipline for a list of nodes. -/
def goodNodes : List SwapNode → Bool
  | [] => true
  | n :: rest => goodNode n && goodNodes rest

end

/-- The rendered lines of a whole template section: the section header with
its opening brace, the body, the closing brace. -/
def swapSectionLines (hdr : String) (ns : List SwapNode) : List (List Char) :=
  (hdr.toList ++ [' ', '\x7b']) :: (renderNodesList ns ++ [['\x7d']])

/-- The two-tab scenario dump of the specification: tab "build" carrying
`focus=true` with one pane named "ssh-a", tab "logs" without focus with one
anonymous pane. -/
def c2Dump : String :=
  "layout \x7b\n    tab name=\"build\" focus=true \x7b\n        pane name=\"ssh-a\"\n    \x7d\n    tab name=\"logs\" \x7b\n        pane\n    \x7d\n\x7d"

/-- The descriptor the parser actually produces for the "ssh-a" pane of
`c2Dump` (note `tab_focused := false`). -/
def c2PaneBuild : Pane :=
  { tab := some "build", tab_index := 1, tab_focused := false,
    pane_index := 0, floating := false, name := some "ssh-a" }

/-- The descriptor the parser produces for the anonymous "logs" pane. -/
def c2PaneLogs : Pane :=
  { tab := some "logs", tab_index := 2, tab_focused := false,
    pane_index := 0, floating := false }

/-- A pane whose display name contains "ssh" as a substring (no marker). -/
def c1PaneSubstr : Pane :=
  { tab := some "t", tab_index := 1, tab_focused := false, pane_index := 0,
    floating := false, name := some "my-ssh-box" }

/-- A later pane carrying the embedded `ZELLIJ_PANE_NAME=ssh` marker in its
launch args. -/
def c1PaneMarker : Pane :=
  { tab := some "t", tab_index := 1, tab_focused := false, pane_index := 1,
    floating := false, args := some "\"run\" \"--\" \"ZELLIJ_PANE_NAME=ssh\"" }

def c1Panes : List Pane := [c1PaneSubstr, c1PaneMarker]

/-- A dump whose "work" tab holds an anonymous shell pane (ordinal 0) and a
command pane "tgt" (ordinal 1). -/
def c6Dump : String :=
  "tab name=\"work\" \x7b\n pane\n pane command=\"bash\" name=\"tgt\"\n\x7d"

/-- The target descriptor for the focus-cycling counterexample: the "tgt"
pane of `c6Dump`. -/
def c6Target : Pane :=
  { tab := some "work", tab_index := 1, tab_focused := false, pane_index := 1,
    floating := false, command := some "bash", name := some "tgt" }

/-- A cache holding a fresh layout for session "s1". -/
def c3Cache : LCache := layoutCache_set lcEmpty 0 "cached-layout" (some "s1") none

/-- Control-plane pane listing for the daemon scenario: pane 3 is the
focused non-plugin pane, pane 9 unfocused. -/
def c8Bridge : List BridgePane :=
  [{ id := 3, is_focused := true, is_plugin := false },
   { id := 9, is_focused := false, is_plugin := false }]

/-- A successful plugin focus response. -/
def c8FocusOk : DaemonResp := { success := true }

/-- A registered pane for the unregister witness. -/
def c10PaneA : PaneInfo := { name := "a", tab := "t" }

/-- A session state with pane "a" registered and a tail cursor for it. -/
def c10St : SState :=
  { panes := fun k => if k = "a" then some c10PaneA else none,
    ssh_sessions := fun _ => none,
    tracked_jobs := fun _ => none,
    pane_groups := fun _ => none,
    pane_cursors := fun k => if k = "a" then some 3 else none,
    spawned_agents := fun _ => none }

/-- Tabs for the parser round-trip witness. -/
def c4Tabs : List TabSpec :=
  [{ name := "build", panes := [{ name := some "ssh-a" }] },
   { name := "logs", panes := [{}, { command := some "htop" }] }]

def c5Pre : List String := ["layout \x7b", "tab name=\"t1\" \x7b", "pane"]

def c5Nodes : List SwapNode :=
  [SwapNode.plain "pane name=\"ghost\"",
   SwapNode.block "tab" [SwapNode.plain "pane",
     SwapNode.block "pane split_direction=\"vertical\""
       [SwapNode.plain "pane"]]]

def c5Post : List String :=
  ["\x7d", "tab name=\"t2\" \x7b", "pane command=\"vim\"", "\x7d", "\x7d"]

/-- The descriptors the parser is expected to emit for one rendered tab's
pane lines, starting at ordinal `k`. -/
def expectedTabPanes (tab : Option String) (ti : Nat) (tf : Bool) :
    Nat → List PaneSpec → List Pane
  | _, [] => []
  | k, p :: rest =>
    topPaneInfo (renderPaneLine p) tab ti tf k false
      :: expectedTabPanes tab ti tf (k + 1) rest

/-- The descriptors the parser is expected to emit for a rendered dump,
with `i` tabs already seen. -/
def expectedDumpPanes : Nat → List TabSpec → List Pane
  | _, [] => []
  | i, t :: rest =>
    expectedTabPanes (some t.name) (i + 1) false 0 t.panes
      ++ expectedDumpPanes (i + 1) rest

theorem fpScan_eq_find (name : String) (panes : List Pane) :
    fpScan (lowerChars name.toList)
        (lowerChars ("ZELLIJ_PANE_NAME=" ++ name).toList) panes
      = panes.find? (textHit name) := by
  induction panes with
  | nil => rfl
  | cons p rest ih =>
    simp only [fpScan, List.find?_cons]
    cases hA : isSubOf (lowerChars name.toList)
        (lowerChars (p.name.getD "").toList) <;>
    cases hB : isSubOf (lowerChars name.toList)
        (lowerChars (p.command.getD "").toList) <;>
    cases hC : isSubOf (lowerChars ("ZELLIJ_PANE_NAME=" ++ name).toList)
        (lowerChars (p.args.getD "").toList) <;>
    simp_all [textHit]

theorem fpFallback_eq_find (rp : PaneInfo) (ri : Nat) (panes : List Pane) :
    fpFallback rp.tab ri rp.floating panes = panes.find? (ordHit rp ri) := by
  induction panes with
  | nil => rfl
  | cons p rest ih =>
    simp only [fpFallback, List.find?_cons, ordHit]
    cases h : ((p.tab == some rp.tab || rp.tab == "current")
        && p.floating == rp.floating && p.pane_index == ri) <;>
    simp [ih]

/-- C1 (counterexample): with a pane whose display name contains "ssh"
scanned before a pane carrying the `ZELLIJ_PANE_NAME=ssh` marker,
`find_pane_by_name` returns the substring match, while the marker-first
order the claim states would return the marker pane: the claimed strategy
order "marker first, then substring" is false of the code. -/
theorem find_pane_order_counterexample :
    find_pane_by_name c1Panes "ssh" none = some c1PaneSubstr
    ∧ locate_spec_order c1Panes "ssh" none = some c1PaneMarker
    ∧ c1PaneSubstr ≠ c1PaneMarker := by
  refine ⟨rfl, rfl, by decide⟩

/-- C1 (amended): `find_pane_by_name` performs a single scan over the
panes, returning the first pane that passes the combined text test
(case-insensitive substring containment of the name in the pane's display
name or command, or the embedded `ZELLIJ_PANE_NAME=<name>` marker in its
launch args) — so an earlier substring match takes precedence over a later
marker match; only when every pane fails the combined test does it fall
back to the registered-ordinal search (same tab or a registered tab of
"current", same floating flag, equal ordinal), and it returns `none` when
all strategies miss. -/
theorem find_pane_scan_order (panes : List Pane) (name : String)
    (registered : Option PaneInfo) :
    find_pane_by_name panes name registered =
      match panes.find? (textHit name) with
      | some p => some p
      | none =>
        match registered with
        | some rp =>
          match rp.pane_index with
          | some ri => panes.find? (ordHit rp ri)
          | none => none
        | none => none := by
  simp only [find_pane_by_name]
  rw [fpScan_eq_find]
  cases panes.find? (textHit name) with
  | some p => rfl
  | none =>
    cases registered with
    | none => rfl
    | some rp =>
      cases h : rp.pane_index with
      | none => simp [h]
      | some ri => simp [h, fpFallback_eq_find]

/-- C2 (code bug, evaluated at the failing input): on the two-tab scenario
dump, the parser returns exactly the two expected descriptors and the
locator resolves "ssh-a" to the first one through the text scan (no
registered pane, hence no ordinal fallback) — but the "ssh-a" descriptor
has `tab_focused = false`, not `true` as the scenario requires, because the
optional `(focus=true)?` group after the lazy `.*?` in the tab-header regex
can never match when whitespace separates it from the name. -/
theorem parse_two_tabs_scenario_eval :
    parse_layout_panes c2Dump = [c2PaneBuild, c2PaneLogs]
    ∧ c2PaneBuild.tab_focused = false
    ∧ find_pane_by_name (parse_layout_panes c2Dump) "ssh-a" none
        = some c2PaneBuild
    ∧ fpScan (lowerChars "ssh-a".toList)
        (lowerChars ("ZELLIJ_PANE_NAME=" ++ "ssh-a").toList)
        (parse_layout_panes c2Dump) = some c2PaneBuild
    ∧ (tabSearch ("tab name=\"build\" focus=true \x7b".toList)).map Prod.snd
        = some false := by
  refine ⟨rfl, rfl, rfl, rfl, rfl⟩

/-- C3 (code bug, evaluated at the failing input): the tool layer's
`move_tab` issues the action `"move-tab"`, which is missing from
`LAYOUT_MUTATING_ACTIONS`, so a cached layout for the target session
survives the command (and is still served afterwards) even though moving a
tab mutates the layout; by contrast every action that is in the set
invalidates the target session's entry unconditionally — even when the
underlying command failed. -/
theorem move_tab_cache_not_invalidated :
    LAYOUT_MUTATING_ACTIONS.contains "move-tab" = false
    ∧ (call_tool_move_tab c3Cache 1 "left" (some "s1") none
        { success := false }).2 "s1" = some (0, "cached-layout")
    ∧ layoutCache_get (call_tool_move_tab c3Cache 1 "left" (some "s1") none
        { success := false }).2 defaultTTL ((1 : Rat) / 4) (some "s1") none
        = some "cached-layout"
    ∧ (∀ a ∈ LAYOUT_MUTATING_ACTIONS, ∀ (cache : LCache) (now : Rat)
        (capture : Bool) (s e : Option String) (r : RunResult),
        (zellij_action_cache cache now a capture s e r).2
          (resolve_session_key s e) = none) := by
  refine ⟨rfl, rfl, ?_, ?_⟩
  · show (if ((1 : Rat) / 4 - 0 < defaultTTL) then some "cached-layout"
        else none) = some "cached-layout"
    rw [if_pos (by norm_num [defaultTTL])]
  · intro a ha cache now capture s e r
    have hne : ¬ (a = "dump-layout") := by
      intro h
      subst h
      revert ha
      decide
    simp [zellij_action_cache, hne, ha, layoutCache_invalidate]

/-- C6 (counterexample): on `c6Dump`, whose "work" tab holds an anonymous
shell pane and the not-focused target "tgt" at ordinal 1, the arbiter
issues 0 focus-next-pane commands (the code counts only command-bearing
panes, so 1 % 1 = 0), while the claimed formula — ordinal modulo the count
of non-plugin panes in the tab — gives 1 % 2 = 1. -/
theorem focus_cycle_count_counterexample :
    find_pane_by_name (parse_layout_panes c6Dump) "tgt" none = some c6Target
    ∧ c6Target.focused = false
    ∧ countFocusNext
        (with_pane_focus_impl (some c6Dump) none "tgt" true
          { success := true }).2 = 0
    ∧ specClaimCycles (parse_layout_panes c6Dump) c6Target = 1 := by
  refine ⟨rfl, rfl, rfl, rfl⟩

theorem cycleStepEvents_eq (panes : List Pane) (target : Pane)
    (h : target.focused = false) :
    cycleStepEvents panes target
      = List.replicate (codeCycles panes target)
          (FEvent.act "focus-next-pane" none) ++ [FEvent.cacheInvalidate] := by
  have hpos : ∀ (tp : List Pane), 0 < (if tp.isEmpty then 1 else tp.length) := by
    intro tp
    cases tp <;> simp
  simp only [cycleStepEvents, codeCycles, h, Bool.not_false, if_true]
  rw [if_pos (hpos _)]

theorem countFocusNext_restore (panes : List Pane) (target : Pane) :
    countFocusNext (restoreTabEvents panes target) = 0 := by
  unfold restoreTabEvents countFocusNext
  split
  · split <;> simp
  · rfl

/-- C6 (amended): whenever the located target pane is not already marked
focused (and the tab switch, when needed, succeeds), the arbiter issues
exactly `pane_index % n` focus-next-pane commands — where `n` is the count
of panes in the target's tab that carry a non-empty command not containing
"plugin" (anonymous shell panes are NOT counted), with `n` falling back to
1 when that count is empty — and invalidates the layout cache immediately
after the cycling, with no focus-next-pane command issued anywhere else. -/
theorem focus_cycle_step_exact (txt : String) (registered : Option PaneInfo)
    (pane_name : String) (res : FocusOutcome) (target : Pane)
    (hfind : find_pane_by_name (parse_layout_panes txt) pane_name registered
      = some target)
    (hfoc : target.focused = false) :
    ∃ pre post,
      (with_pane_focus_impl (some txt) registered pane_name true res).2
        = pre ++ List.replicate (codeCycles (parse_layout_panes txt) target)
            (FEvent.act "focus-next-pane" none)
          ++ [FEvent.cacheInvalidate] ++ post
      ∧ countFocusNext pre = 0 ∧ countFocusNext post = 0 := by
  refine ⟨[FEvent.act "dump-layout" none]
      ++ (if (!target.tab_focused && !(target.tab.getD "").isEmpty) = true then
        [FEvent.act "go-to-tab-name" target.tab] else []),
      restoreTabEvents (parse_layout_panes txt) target, ?_, ?_, ?_⟩
  · simp only [with_pane_focus_impl, hfind]
    simp only [Bool.not_true, Bool.and_false, Bool.not_false, if_false,
      ite_false]
    rw [cycleStepEvents_eq _ _ hfoc]
    simp [List.append_assoc]
  · cases h : (!target.tab_focused && !(target.tab.getD "").isEmpty) <;>
      simp [countFocusNext]
  · exact countFocusNext_restore _ _

theorem focus_cycle_step_exact_witness :
    ∃ pre post,
      (with_pane_focus_impl (some c6Dump) none "tgt" true
          { success := true }).2
        = pre ++ List.replicate (codeCycles (parse_layout_panes c6Dump) c6Target)
            (FEvent.act "focus-next-pane" none)
          ++ [FEvent.cacheInvalidate] ++ post
      ∧ countFocusNext pre = 0 ∧ countFocusNext post = 0 :=
  focus_cycle_step_exact c6Dump none "tgt" { success := true } c6Target rfl rfl

theorem layout_cache_get_some (ops : List CacheOp) (c : LCache)
    (ttl now : Rat) (s e : Option String) (L : String)
    (h : layoutCache_get (cacheExec c ops) ttl now s e = some L) :
    (∃ ts s' e', CacheOp.set ts L s' e' ∈ ops
      ∧ resolve_session_key s' e' = resolve_session_key s e ∧ now - ts < ttl)
    ∨ layoutCache_get c ttl now s e = some L := by
  induction ops generalizing c with
  | nil => exact Or.inr h
  | cons op ops ih =>
    rcases ih (cacheStep c op) h with hmem | hbase
    · obtain ⟨ts, s', e', hm, hk, hlt⟩ := hmem
      exact Or.inl ⟨ts, s', e', List.mem_cons_of_mem _ hm, hk, hlt⟩
    · cases op with
      | set t lay s' e' =>
        by_cases hk : resolve_session_key s' e' = resolve_session_key s e
        · simp only [cacheStep, layoutCache_get, layoutCache_set, hk,
            if_pos rfl, if_true] at hbase
          by_cases hlt : now - t < ttl
          · rw [if_pos hlt] at hbase
            obtain rfl : lay = L := Option.some.inj hbase
            exact Or.inl ⟨t, s', e', List.mem_cons_self _ _, hk, hlt⟩
          · rw [if_neg hlt] at hbase
            exact absurd hbase (by simp)
        · refine Or.inr ?_
          have hk' : ¬(resolve_session_key s e = resolve_session_key s' e') :=
            fun hh => hk hh.symm
          simpa only [cacheStep, layoutCache_get, layoutCache_set,
            if_neg hk'] using hbase
      | invalidate s' e' =>
        by_cases hk : resolve_session_key s' e' = resolve_session_key s e
        · exfalso
          simp only [cacheStep, layoutCache_get, layoutCache_invalidate, hk,
            if_pos rfl, if_true] at hbase
          exact Option.noConfusion hbase
        · refine Or.inr ?_
          have hk' : ¬(resolve_session_key s e = resolve_session_key s' e') :=
            fun hh => hk hh.symm
          simpa only [cacheStep, layoutCache_get, layoutCache_invalidate,
            if_neg hk'] using hbase

/-- C7: a `get` that returns a layout traces back to a `set` of that layout
for the same resolved session key performed less than TTL seconds before
`now` (so an entry set more than TTL earlier is never returned); `get`
right after `invalidate` of the same key is always absent; and both
"never set" and "expired" yield the same absent result, indistinguishable
to the caller. -/
theorem layout_cache_ttl_spec (ops : List CacheOp) (ttl now : Rat)
    (s e : Option String) (L : String)
    (h : layoutCache_get (cacheExec lcEmpty ops) ttl now s e = some L) :
    (∃ ts s' e', CacheOp.set ts L s' e' ∈ ops
      ∧ resolve_session_key s' e' = resolve_session_key s e ∧ now - ts < ttl)
    ∧ (∀ (c : LCache) (s2 e2 : Option String) (t2 : Rat),
        layoutCache_get (layoutCache_invalidate c s2 e2) ttl t2 s2 e2 = none)
    ∧ (∀ (t2 : Rat) (s2 e2 : Option String),
        layoutCache_get lcEmpty ttl t2 s2 e2 = none)
    ∧ (∀ (c : LCache) (ts2 t2 : Rat) (lay : String) (s2 e2 : Option String),
        c (resolve_session_key s2 e2) = some (ts2, lay) →
        ¬(t2 - ts2 < ttl) → layoutCache_get c ttl t2 s2 e2 = none) := by
  refine ⟨?_, ?_, ?_, ?_⟩
  · rcases layout_cache_get_some ops lcEmpty ttl now s e L h with hmem | hbase
    · exact hmem
    · simp [layoutCache_get, lcEmpty] at hbase
  · intro c s2 e2 t2
    simp [layoutCache_get, layoutCache_invalidate]
  · intro t2 s2 e2
    rfl
  · intro c ts2 t2 lay s2 e2 hc hlt
    simp [layoutCache_get, hc, hlt]

theorem layout_cache_ttl_spec_witness :
    (∃ ts s' e', CacheOp.set ts "L1" s' e' ∈ [CacheOp.set 0 "L1" (some "s") none]
      ∧ resolve_session_key s' e' = resolve_session_key (some "s") none
      ∧ (1 : Rat) / 4 - ts < defaultTTL)
    ∧ (∀ (c : LCache) (s2 e2 : Option String) (t2 : Rat),
        layoutCache_get (layoutCache_invalidate c s2 e2) defaultTTL t2 s2 e2
          = none)
    ∧ (∀ (t2 : Rat) (s2 e2 : Option String),
        layoutCache_get lcEmpty defaultTTL t2 s2 e2 = none)
    ∧ (∀ (c : LCache) (ts2 t2 : Rat) (lay : String) (s2 e2 : Option String),
        c (resolve_session_key s2 e2) = some (ts2, lay) →
        ¬(t2 - ts2 < defaultTTL) →
        layoutCache_get c defaultTTL t2 s2 e2 = none) :=
  layout_cache_ttl_spec [CacheOp.set 0 "L1" (some "s") none] defaultTTL
    ((1 : Rat) / 4) (some "s") none "L1"
    (by
      show (if ((1 : Rat) / 4 - 0 < defaultTTL) then some "L1" else none)
        = some "L1"
      rw [if_pos (by norm_num [defaultTTL])])

/-- C8: when the control-plane focus of the target succeeds, the daemon's
read responds with success, the target pane id, and the (ANSI-stripped)
screen content truncated to the last `t` lines exactly when a positive
tail `t` was requested; it issues the pane listing, the target focus and
the screen dump in order, and then restores the previously focused
non-plugin pane exactly when one was recorded and differs from the
target. -/
theorem daemon_read_pane_spec (listResult : Option (List BridgePane))
    (focusResult : DaemonResp) (screen : String) (pane_id : Nat)
    (full : Bool) (tail : Option Int)
    (hfocus : focusResult.success = true) :
    (read_pane listResult focusResult screen pane_id full tail).1.success = true
    ∧ (read_pane listResult focusResult screen pane_id full tail).1.pane_id
        = some pane_id
    ∧ (∀ t : Int, tail = some t → 0 < t →
        (read_pane listResult focusResult screen pane_id full tail).1.content
          = some (String.mk (joinNL
              ((splitLines (stripAnsi screen.toList)).drop
                ((splitLines (stripAnsi screen.toList)).length - t.toNat)))))
    ∧ (tail = none →
        (read_pane listResult focusResult screen pane_id full tail).1.content
          = some (String.mk (stripAnsi screen.toList)))
    ∧ (read_pane listResult focusResult screen pane_id full tail).2
        = [DEvent.plugin_list, DEvent.plugin_focus pane_id,
           DEvent.dump_screen full]
          ++ (match listResult with
              | some data =>
                match firstFocusedNonPlugin data with
                | some o => if o ≠ pane_id then [DEvent.plugin_focus o] else []
                | none => []
              | none => []) := by
  simp only [read_pane, hfocus, Bool.not_true, Bool.false_eq_true, if_false,
    ite_false]
  refine ⟨trivial, trivial, ?_, ?_, ?_⟩
  · intro t ht hpos
    subst ht
    simp [hpos]
  · intro ht
    subst ht
    rfl
  · cases listResult with
    | none => rfl
    | some data =>
      cases firstFocusedNonPlugin data with
      | none => rfl
      | some o => rfl

theorem daemon_read_pane_spec_witness :
    ((read_pane (some c8Bridge) c8FocusOk "x\na\nb\nc\nd\ne" 7 false
        (some 5)).1.content
      = some (String.mk (joinNL
          ((splitLines (stripAnsi ("x\na\nb\nc\nd\ne" : String).toList)).drop
            ((splitLines (stripAnsi ("x\na\nb\nc\nd\ne" : String).toList)).length
              - (5 : Int).toNat)))))
    ∧ (read_pane (some c8Bridge) c8FocusOk "x\na\nb\nc\nd\ne" 7 false
        (some 5)).1
      = { success := true, content := some "a\nb\nc\nd\ne", pane_id := some 7 }
    ∧ (read_pane (some c8Bridge) c8FocusOk "x\na\nb\nc\nd\ne" 7 false
        (some 5)).2
      = [DEvent.plugin_list, DEvent.plugin_focus 7, DEvent.dump_screen false,
         DEvent.plugin_focus 3] := by
  refine ⟨(daemon_read_pane_spec (some c8Bridge) c8FocusOk "x\na\nb\nc\nd\ne"
    7 false (some 5) rfl).2.2.1 5 rfl (by decide), rfl, rfl⟩

/-- C10: `unregister_pane` returns True exactly when the name is currently
registered, in which case it removes that pane's entry and its tail-read
cursor and changes nothing else (other names and all other registries are
untouched); when the name is not registered it returns False and leaves
the state unchanged. -/
theorem unregister_pane_spec (st : SState) (name : String) :
    ((unregister_pane st name).1 = true ↔ (st.panes name).isSome = true)
    ∧ ((st.panes name).isSome = true →
        (unregister_pane st name).2.panes name = none
        ∧ (unregister_pane st name).2.pane_cursors name = none
        ∧ (∀ k, k ≠ name →
            (unregister_pane st name).2.panes k = st.panes k
            ∧ (unregister_pane st name).2.pane_cursors k = st.pane_cursors k))
    ∧ (unregister_pane st name).2.ssh_sessions = st.ssh_sessions
    ∧ (unregister_pane st name).2.tracked_jobs = st.tracked_jobs
    ∧ (unregister_pane st name).2.pane_groups = st.pane_groups
    ∧ (unregister_pane st name).2.spawned_agents = st.spawned_agents
    ∧ ((st.panes name).isSome = false →
        (unregister_pane st name).1 = false
        ∧ (unregister_pane st name).2 = st) := by
  cases h : st.panes name with
  | some pinfo =>
    have h2 : unregister_pane st name = (true,
        { st with
          panes := fun k => if k = name then none else st.panes k,
          pane_cursors := fun k => if k = name then none
            else st.pane_cursors k }) := by
      simp [unregister_pane, h]
    rw [h2]
    refine ⟨by simp [h], ?_, rfl, rfl, rfl, rfl, by simp [h]⟩
    intro _
    exact ⟨by simp, by simp, fun k hk => ⟨by simp [hk], by simp [hk]⟩⟩
  | none =>
    have h2 : unregister_pane st name = (false, st) := by
      simp [unregister_pane, h]
    rw [h2]
    simp [h]

theorem unregister_pane_spec_witness :
    (unregister_pane c10St "a").1 = true
    ∧ (unregister_pane c10St "a").2.panes "a" = none
    ∧ (unregister_pane c10St "a").2.pane_cursors "a" = none
    ∧ (unregister_pane c10St "a").2.panes "b" = c10St.panes "b"
    ∧ (unregister_pane c10St "a").2.pane_cursors "b" = c10St.pane_cursors "b" := by
  have h := unregister_pane_spec c10St "a"
  exact ⟨h.1.mpr rfl, (h.2.1 rfl).1, (h.2.1 rfl).2.1,
    ((h.2.1 rfl).2.2 "b" (by decide)).1, ((h.2.1 rfl).2.2 "b" (by decide)).2⟩

theorem count_dropWhile_of_ne (a : Char) (p : Char → Bool) (l : List Char)
    (h : ∀ c, p c = true → c ≠ a) :
    (l.dropWhile p).count a = l.count a := by
  induction l with
  | nil => rfl
  | cons c t ih =>
    by_cases hc : p c = true
    · rw [List.dropWhile_cons_of_pos hc, ih, List.count_cons]
      simp [h c hc]
    · rw [List.dropWhile_cons_of_neg (by simp_all)]

theorem pyStrip_count (a : Char) (l : List Char) (ha : isPySpace a = false) :
    (pyStrip l).count a = l.count a := by
  have key : ∀ c, isPySpace c = true → c ≠ a := by
    intro c hc he
    rw [he, ha] at hc
    cases hc
  unfold pyStrip
  rw [List.count_reverse, count_dropWhile_of_ne a _ _ key, List.count_reverse,
    count_dropWhile_of_ne a _ _ key]

theorem pyStrip_eq_self (l : List Char)
    (h1 : ∀ c t, l = c :: t → isPySpace c = false)
    (h2 : ∀ c t, l.reverse = c :: t → isPySpace c = false) :
    pyStrip l = l := by
  have hfront : l.dropWhile isPySpace = l := by
    cases hl : l with
    | nil => rfl
    | cons c t => rw [List.dropWhile_cons_of_neg (by simp [h1 c t hl])]
  have hrear : l.reverse.dropWhile isPySpace = l.reverse := by
    cases hr : l.reverse with
    | nil => rfl
    | cons c t => rw [List.dropWhile_cons_of_neg (by simp [h2 c t hr])]
  unfold pyStrip
  rw [hfront, hrear, List.reverse_reverse]

theorem splitLines_no_newline (l : List Char) (h : ('\n') ∉ l) :
    splitLines l = [l] := by
  induction l with
  | nil => rfl
  | cons c t ih =>
    have hc : ¬(c = '\n') := fun he => h (he ▸ List.mem_cons_self _ _)
    have ht : ('\n') ∉ t := fun hm => h (List.mem_cons_of_mem _ hm)
    simp [splitLines, hc, ih ht]

theorem splitLines_append_newline (l r : List Char) (h : ('\n') ∉ l) :
    splitLines (l ++ '\n' :: r) = l :: splitLines r := by
  induction l with
  | nil => simp [splitLines]
  | cons c t ih =>
    have hc : ¬(c = '\n') := fun he => h (he ▸ List.mem_cons_self _ _)
    have ht : ('\n') ∉ t := fun hm => h (List.mem_cons_of_mem _ hm)
    simp [splitLines, hc, ih ht]

theorem splitLines_joinNL (ls : List (List Char)) (hne : ls ≠ [])
    (h : ∀ l ∈ ls, ('\n') ∉ l) : splitLines (joinNL ls) = ls := by
  induction ls with
  | nil => cases hne rfl
  | cons l rest ih =>
    cases rest with
    | nil => exact splitLines_no_newline l (h l (List.mem_cons_self _ _))
    | cons l2 rest2 =>
      rw [show joinNL (l :: l2 :: rest2) = l ++ '\n' :: joinNL (l2 :: rest2)
        from rfl]
      rw [splitLines_append_newline _ _ (h l (List.mem_cons_self _ _))]
      rw [ih (by simp) (fun x hx => h x (List.mem_cons_of_mem _ hx))]

theorem parse_eq_parseLines (ls : List (List Char)) (hne : ls ≠ [])
    (h : ∀ l ∈ ls, ('\n') ∉ l) :
    parse_layout_panes (String.mk (joinNL ls))
      = (parseLinesSt initPState ls).panes := by
  unfold parse_layout_panes
  rw [show (String.mk (joinNL ls)).toList = joinNL ls from rfl,
    splitLines_joinNL ls hne h]

theorem parseLinesSt_append (st : PState) (a b : List (List Char)) :
    parseLinesSt st (a ++ b) = parseLinesSt (parseLinesSt st a) b :=
  List.foldl_append _ _ _ _

theorem pstep_inside_swap (st : PState) (l : List Char)
    (hd : 0 < st.swap_layout_depth)
    (hpre : swapPre (pyStrip l) = false) :
    pstep st l = { st with swap_layout_depth :=
      if st.swap_layout_depth + ((pyStrip l).count '\x7b' : Int)
          - ((pyStrip l).count '\x7d' : Int) ≤ 0 then 0
      else st.swap_layout_depth + ((pyStrip l).count '\x7b' : Int)
          - ((pyStrip l).count '\x7d' : Int) } := by
  have h1 : (("swap_tiled_layout".toList).isPrefixOf (pyStrip l)) = false := by
    revert hpre
    unfold swapPre
    cases ("swap_tiled_layout".toList).isPrefixOf (pyStrip l) <;> simp
  have h2 : (("swap_floating_layout".toList).isPrefixOf (pyStrip l)) = false := by
    revert hpre
    unfold swapPre
    cases ("swap_floating_layout".toList).isPrefixOf (pyStrip l) <;> simp
  unfold pstep
  simp only [h1, h2, Bool.or_self, Bool.false_eq_true, if_false, ite_false]
  rw [if_pos hd]

theorem pstep_inside_swap_balanced (st : PState) (l : List Char)
    (hd : 0 < st.swap_layout_depth)
    (hpre : swapPre (pyStrip l) = false)
    (hbal : l.count '\x7b' = l.count '\x7d') :
    pstep st l = st := by
  rw [pstep_inside_swap st l hd hpre]
  rw [pyStrip_count '\x7b' l (by decide), pyStrip_count '\x7d' l (by decide),
    hbal]
  have he : st.swap_layout_depth + (l.count '\x7d' : Int)
      - (l.count '\x7d' : Int) = st.swap_layout_depth := by omega
  rw [he, if_neg (by omega)]

theorem pstep_inside_swap_block_open (st : PState) (h : String)
    (hd : 0 < st.swap_layout_depth)
    (hpre : swapPre (pyStrip (h.toList ++ [' ', '\x7b'])) = false)
    (hb1 : h.toList.count '\x7b' = 0) (hb2 : h.toList.count '\x7d' = 0) :
    pstep st (h.toList ++ [' ', '\x7b'])
      = { st with swap_layout_depth := st.swap_layout_depth + 1 } := by
  rw [pstep_inside_swap st _ hd hpre]
  rw [pyStrip_count '\x7b' _ (by decide), pyStrip_count '\x7d' _ (by decide)]
  rw [List.count_append, List.count_append, hb1, hb2]
  have e1 : ((0 + List.count '\x7b' [' ', '\x7b'] : Nat) : Int) = 1 := by decide
  have e2 : ((0 + List.count '\x7d' [' ', '\x7b'] : Nat) : Int) = 0 := by decide
  rw [e1, e2]
  have he : st.swap_layout_depth + 1 - 0 = st.swap_layout_depth + 1 := by omega
  rw [he, if_neg (by omega)]

theorem pstep_inside_swap_close (st : PState)
    (hd : 0 < st.swap_layout_depth) :
    pstep st ['\x7d'] = { st with swap_layout_depth :=
      if st.swap_layout_depth - 1 ≤ 0 then 0
      else st.swap_layout_depth - 1 } := by
  rw [pstep_inside_swap st _ hd (by decide)]
  have e1 : (((pyStrip ['\x7d']).count '\x7b' : Nat) : Int) = 0 := by decide
  have e2 : (((pyStrip ['\x7d']).count '\x7d' : Nat) : Int) = 1 := by decide
  rw [e1, e2]
  have he : st.swap_layout_depth + 0 - 1 = st.swap_layout_depth - 1 := by omega
  rw [he]

mutual

theorem renderNode_skip (n : SwapNode) (st : PState)
    (hg : goodNode n = true) (hd : 0 < st.swap_layout_depth) :
    parseLinesSt st (renderNode n) = st :=
  match n with
  | SwapNode.plain s => by
    unfold goodNode at hg
    have hbal : s.toList.count '\x7b' = s.toList.count '\x7d' := by
      have := (Bool.and_eq_true_iff.mp
        (Bool.and_eq_true_iff.mp hg).1).1
      exact eq_of_beq this
    have hpre : swapPre (pyStrip s.toList) = false := by
      have := (Bool.and_eq_true_iff.mp hg).2
      revert this
      cases swapPre (pyStrip s.toList) <;> simp
    show pstep st s.toList = st
    exact pstep_inside_swap_balanced st s.toList hd hpre hbal
  | SwapNode.block h cs => by
    unfold goodNode at hg
    have hb1 : h.toList.count '\x7b' = 0 := by
      have := (Bool.and_eq_true_iff.mp (Bool.and_eq_true_iff.mp
        (Bool.and_eq_true_iff.mp (Bool.and_eq_true_iff.mp hg).1).1).1).1
      exact eq_of_beq this
    have hb2 : h.toList.count '\x7d' = 0 := by
      have := (Bool.and_eq_true_iff.mp (Bool.and_eq_true_iff.mp
        (Bool.and_eq_true_iff.mp (Bool.and_eq_true_iff.mp hg).1).1).1).2
      exact eq_of_beq this
    have hpre : swapPre (pyStrip (h.toList ++ [' ', '\x7b'])) = false := by
      have := (Bool.and_eq_true_iff.mp (Bool.and_eq_true_iff.mp hg).1).2
      revert this
      cases swapPre (pyStrip (h.toList ++ [' ', '\x7b'])) <;> simp
    have hcs : goodNodes cs = true := (Bool.and_eq_true_iff.mp hg).2
    show parseLinesSt st ((h.toList ++ [' ', '\x7b'])
      :: (renderNodesList cs ++ [['\x7d']])) = st
    calc parseLinesSt st ((h.toList ++ [' ', '\x7b'])
          :: (renderNodesList cs ++ [['\x7d']]))
        = parseLinesSt (pstep st (h.toList ++ [' ', '\x7b']))
            (renderNodesList cs ++ [['\x7d']]) := rfl
      _ = parseLinesSt { st with swap_layout_depth :=
            st.swap_layout_depth + 1 } (renderNodesList cs ++ [['\x7d']]) := by
          rw [pstep_inside_swap_block_open st h hd hpre hb1 hb2]
      _ = parseLinesSt (parseLinesSt { st with swap_layout_depth :=
            st.swap_layout_depth + 1 } (renderNodesList cs)) [['\x7d']] := by
          rw [parseLinesSt_append]
      _ = parseLinesSt { st with swap_layout_depth :=
            st.swap_layout_depth + 1 } [['\x7d']] := by
          rw [renderNodesList_skip cs _ hcs (by simp; omega)]
      _ = st := by
          show pstep { st with swap_layout_depth :=
            st.swap_layout_depth + 1 } ['\x7d'] = st
          rw [pstep_inside_swap_close _ (by simp; omega)]
          simp only []
          have he : st.swap_layout_depth + 1 - 1 = st.swap_layout_depth := by
            omega
          rw [he, if_neg (by omega)]

theorem renderNodesList_skip (ns : List SwapNode) (st : PState)
    (hg : goodNodes ns = true) (hd : 0 < st.swap_layout_depth) :
    parseLinesSt st (renderNodesList ns) = st :=
  match ns with
  | [] => rfl
  | n :: rest => by
    unfold goodNodes at hg
    have hn : goodNode n = true := (Bool.and_eq_true_iff.mp hg).1
    have hrest : goodNodes rest = true := (Bool.and_eq_true_iff.mp hg).2
    show parseLinesSt st (renderNode n ++ renderNodesList rest) = st
    rw [parseLinesSt_append, renderNode_skip n st hn hd,
      renderNodesList_skip rest st hrest hd]

end

mutual

theorem renderNode_no_newline (n : SwapNode) (hg : goodNode n = true) :
    ∀ l ∈ renderNode n, ('\n') ∉ l :=
  match n with
  | SwapNode.plain s => by
    unfold goodNode at hg
    have hb : s.toList.contains '\n' = false := by
      have := (Bool.and_eq_true_iff.mp (Bool.and_eq_true_iff.mp hg).1).2
      revert this
      cases s.toList.contains '\n' <;> simp
    intro l hl
    rw [show renderNode (SwapNode.plain s) = [s.toList] from rfl] at hl
    rcases List.mem_singleton.mp hl with rfl
    simpa using hb
  | SwapNode.block h cs => by
    unfold goodNode at hg
    have hb : h.toList.contains '\n' = false := by
      have := (Bool.and_eq_true_iff.mp (Bool.and_eq_true_iff.mp
        (Bool.and_eq_true_iff.mp hg).1).1).2
      revert this
      cases h.toList.contains '\n' <;> simp
    have hcs : goodNodes cs = true := (Bool.and_eq_true_iff.mp hg).2
    intro l hl
    rw [show renderNode (SwapNode.block h cs)
      = (h.toList ++ [' ', '\x7b']) :: (renderNodesList cs ++ [['\x7d']])
      from rfl] at hl
    rcases List.mem_cons.mp hl with rfl | hl2
    · intro hmem
      rcases List.mem_append.mp hmem with hm | hm
      · exact absurd hm (by simpa using hb)
      · simp at hm
    · rcases List.mem_append.mp hl2 with hm | hm
      · exact renderNodesList_no_newline cs hcs l hm
      · rcases List.mem_singleton.mp hm with rfl
        simp

theorem renderNodesList_no_newline (ns : List SwapNode)
    (hg : goodNodes ns = true) :
    ∀ l ∈ renderNodesList ns, ('\n') ∉ l :=
  match ns with
  | [] => by
    intro l hl
    simp [renderNodesList] at hl
  | n :: rest => by
    unfold goodNodes at hg
    have hn : goodNode n = true := (Bool.and_eq_true_iff.mp hg).1
    have hrest : goodNodes rest = true := (Bool.and_eq_true_iff.mp hg).2
    intro l hl
    rw [show renderNodesList (n :: rest)
      = renderNode n ++ renderNodesList rest from rfl] at hl
    rcases List.mem_append.mp hl with hm | hm
    · exact renderNode_no_newline n hn l hm
    · exact renderNodesList_no_newline rest hrest l hm

end

theorem swapSection_skip (hdr : String) (ns : List SwapNode) (st : PState)
    (hhdr : hdr = "swap_tiled_layout" ∨ hdr = "swap_floating_layout"
      ∨ hdr = "new_tab_template")
    (hns : goodNodes ns = true) (hst : st.swap_layout_depth = 0) :
    parseLinesSt st (swapSectionLines hdr ns) = st := by
  obtain ⟨p1, p2, p3, p4, p5, p6, p7, p8, p9⟩ := st
  have hst' : p9 = 0 := hst
  subst hst'
  have hstep : pstep ⟨p1, p2, p3, p4, p5, p6, p7, p8, 0⟩
      (hdr.toList ++ [' ', '\x7b'])
      = ⟨p1, p2, p3, p4, p5, p6, p7, p8, 1⟩ := by
    rcases hhdr with rfl | rfl | rfl <;> rfl
  calc parseLinesSt ⟨p1, p2, p3, p4, p5, p6, p7, p8, 0⟩
        (swapSectionLines hdr ns)
      = parseLinesSt (pstep ⟨p1, p2, p3, p4, p5, p6, p7, p8, 0⟩
          (hdr.toList ++ [' ', '\x7b']))
          (renderNodesList ns ++ [['\x7d']]) := rfl
    _ = parseLinesSt ⟨p1, p2, p3, p4, p5, p6, p7, p8, 1⟩
          (renderNodesList ns ++ [['\x7d']]) := by rw [hstep]
    _ = parseLinesSt (parseLinesSt ⟨p1, p2, p3, p4, p5, p6, p7, p8, 1⟩
          (renderNodesList ns)) [['\x7d']] := by rw [parseLinesSt_append]
    _ = parseLinesSt ⟨p1, p2, p3, p4, p5, p6, p7, p8, 1⟩ [['\x7d']] := by
          rw [renderNodesList_skip ns _ hns (by norm_num)]
    _ = ⟨p1, p2, p3, p4, p5, p6, p7, p8, 0⟩ := rfl

/-- C5: a whole swap-layout or new-tab-template section — its header line,
an arbitrarily deeply nested brace-balanced body (whose lines may be pane
declarations at any depth), and its closing brace — is invisible to the
parser: parsing a dump with the section inserted yields exactly the same
descriptor list as parsing the dump without it, so no pane declared inside
such a section ever appears in the output. -/
theorem swap_template_sections_invisible
    (pre post : List String) (hdr : String) (ns : List SwapNode)
    (hpre : ∀ s ∈ pre, ('\n') ∉ s.toList)
    (hpost : ∀ s ∈ post, ('\n') ∉ s.toList)
    (hpost_ne : post ≠ [])
    (hhdr : hdr = "swap_tiled_layout" ∨ hdr = "swap_floating_layout"
      ∨ hdr = "new_tab_template")
    (hns : goodNodes ns = true)
    (hdepth : (parseLinesSt initPState
        (pre.map (fun s => s.toList))).swap_layout_depth = 0) :
    parse_layout_panes (String.mk (joinNL (pre.map (fun s => s.toList)
        ++ swapSectionLines hdr ns ++ post.map (fun s => s.toList))))
      = parse_layout_panes (String.mk (joinNL (pre.map (fun s => s.toList)
        ++ post.map (fun s => s.toList)))) := by
  have hsec_nl : ∀ l ∈ swapSectionLines hdr ns, ('\n') ∉ l := by
    intro l hl
    rw [show swapSectionLines hdr ns = (hdr.toList ++ [' ', '\x7b'])
      :: (renderNodesList ns ++ [['\x7d']]) from rfl] at hl
    rcases List.mem_cons.mp hl with rfl | hl2
    · intro hmem
      rcases List.mem_append.mp hmem with hm | hm
      · rcases hhdr with rfl | rfl | rfl <;> revert hm <;> decide
      · simp at hm
    · rcases List.mem_append.mp hl2 with hm | hm
      · exact renderNodesList_no_newline ns hns l hm
      · rcases List.mem_singleton.mp hm with rfl
        simp
  have hmap_pre : ∀ l ∈ pre.map (fun s : String => s.toList), ('\n') ∉ l := by
    intro l hl
    rcases List.mem_map.mp hl with ⟨s, hs, rfl⟩
    exact hpre s hs
  have hmap_post : ∀ l ∈ post.map (fun s : String => s.toList), ('\n') ∉ l := by
    intro l hl
    rcases List.mem_map.mp hl with ⟨s, hs, rfl⟩
    exact hpost s hs
  have hall1 : ∀ l ∈ (pre.map (fun s : String => s.toList)
      ++ swapSectionLines hdr ns ++ post.map (fun s : String => s.toList)),
      ('\n') ∉ l := by
    intro l hl
    rcases List.mem_append.mp hl with hl2 | hm
    · rcases List.mem_append.mp hl2 with hm | hm
      · exact hmap_pre l hm
      · exact hsec_nl l hm
    · exact hmap_post l hm
  have hall2 : ∀ l ∈ (pre.map (fun s : String => s.toList)
      ++ post.map (fun s : String => s.toList)), ('\n') ∉ l := by
    intro l hl
    rcases List.mem_append.mp hl with hm | hm
    · exact hmap_pre l hm
    · exact hmap_post l hm
  have hne1 : (pre.map (fun s : String => s.toList)
      ++ swapSectionLines hdr ns
      ++ post.map (fun s : String => s.toList)) ≠ [] := by
    simp [swapSectionLines]
  have hne2 : (pre.map (fun s : String => s.toList)
      ++ post.map (fun s : String => s.toList)) ≠ [] := by
    simp [hpost_ne]
  rw [parse_eq_parseLines _ hne1 hall1, parse_eq_parseLines _ hne2 hall2]
  rw [parseLinesSt_append, parseLinesSt_append, parseLinesSt_append,
    swapSection_skip hdr ns _ hhdr hns hdepth]

theorem swap_template_sections_invisible_witness :
    parse_layout_panes (String.mk (joinNL (c5Pre.map (fun s => s.toList)
        ++ swapSectionLines "swap_tiled_layout" c5Nodes
        ++ c5Post.map (fun s => s.toList))))
      = parse_layout_panes (String.mk (joinNL (c5Pre.map (fun s => s.toList)
        ++ c5Post.map (fun s => s.toList)))) :=
  swap_template_sections_invisible c5Pre c5Post "swap_tiled_layout" c5Nodes
    (by decide) (by decide) (by decide) (Or.inl rfl) (by decide) (by decide)

theorem pyStrip_cons_concat (c : Char) (mid : List Char) (d : Char)
    (hc : isPySpace c = false) (hd : isPySpace d = false) :
    pyStrip (c :: (mid ++ [d])) = c :: (mid ++ [d]) := by
  unfold pyStrip
  rw [List.dropWhile_cons_of_neg (by simp [hc])]
  rw [show (c :: (mid ++ [d])).reverse = d :: (mid.reverse ++ [c]) from by simp]
  rw [List.dropWhile_cons_of_neg (by simp [hd])]
  rw [show (d :: (mid.reverse ++ [c])).reverse = c :: (mid ++ [d]) from by simp]

theorem takeWhile_until_quote (nm r : List Char) (hq : ∀ c ∈ nm, c ≠ '"') :
    (nm ++ '"' :: r).takeWhile (fun c => c ≠ '"') = nm := by
  induction nm with
  | nil => simp [List.takeWhile]
  | cons c t ih =>
    have hc : c ≠ '"' := hq c (List.mem_cons_self _ _)
    simp only [List.cons_append, List.takeWhile_cons]
    simp only [hc, decide_not, Bool.not_false, decide_False]
    simp [hc]
    simpa using ih (fun x hx => hq x (List.mem_cons_of_mem _ hx))

theorem isPrefixOf_append_self (pat rest : List Char) :
    pat.isPrefixOf (pat ++ rest) = true :=
  List.isPrefixOf_iff_prefix.mpr (List.prefix_append pat rest)

theorem tabMatchAt_tab_line (nm : List Char) (hnm : nm ≠ [])
    (hq : ∀ c ∈ nm, c ≠ '"') :
    tabMatchAt ("tab name=\"".toList ++ nm ++ ['"', ' ', '\x7b'])
      = some (nm, false) := by
  have e0 : ("tab name=\"".toList ++ nm ++ ['"', ' ', '\x7b'])
      = "tab".toList ++ (" name=\"".toList ++ (nm ++ ['"', ' ', '\x7b'])) := by
    rw [show "tab name=\"".toList = "tab".toList ++ " name=\"".toList from rfl]
    simp [List.append_assoc]
  rw [e0]
  simp only [tabMatchAt]
  rw [if_pos (isPrefixOf_append_self _ _)]
  rw [show (3 : Nat) = ("tab".toList).length from rfl, List.drop_left]
  rw [show " name=\"".toList ++ (nm ++ ['"', ' ', '\x7b'])
    = ' ' :: ("name=\"".toList ++ (nm ++ ['"', ' ', '\x7b'])) from rfl]
  rw [List.takeWhile_cons_of_pos (by decide)]
  rw [show "name=\"".toList ++ (nm ++ ['"', ' ', '\x7b'])
    = 'n' :: ("ame=\"".toList ++ (nm ++ ['"', ' ', '\x7b'])) from rfl]
  rw [List.takeWhile_cons_of_neg (by decide)]
  rw [if_neg (by simp)]
  rw [show List.drop ([' '].length)
      (' ' :: ('n' :: ("ame=\"".toList ++ (nm ++ ['"', ' ', '\x7b']))))
    = "name=\"".toList ++ (nm ++ ['"', ' ', '\x7b']) from rfl]
  rw [if_pos (isPrefixOf_append_self _ _)]
  rw [show (6 : Nat) = ("name=\"".toList).length from rfl, List.drop_left]
  rw [show (nm ++ ['"', ' ', '\x7b']) = nm ++ '"' :: [' ', '\x7b'] from rfl]
  rw [takeWhile_until_quote nm [' ', '\x7b'] hq]
  rw [if_neg (by simp [hnm])]
  rw [List.drop_left]
  rfl

theorem tabSearch_tab_line (nm : List Char) (hnm : nm ≠ [])
    (hq : ∀ c ∈ nm, c ≠ '"') :
    tabSearch ("tab name=\"".toList ++ nm ++ ['"', ' ', '\x7b'])
      = some (nm, false) := by
  have h := tabMatchAt_tab_line nm hnm hq
  rw [show ("tab name=\"".toList ++ nm ++ ['"', ' ', '\x7b'])
    = 't' :: (("ab name=\"".toList ++ nm) ++ ['"', ' ', '\x7b']) from rfl]
  simp only [tabSearch]
  rw [show 't' :: (("ab name=\"".toList ++ nm) ++ ['"', ' ', '\x7b'])
    = "tab name=\"".toList ++ nm ++ ['"', ' ', '\x7b'] from rfl, h]

theorem pstep_tab_line (st : PState) (nm : List Char)
    (hnm : nm ≠ []) (hq : ∀ c ∈ nm, c ≠ '"')
    (hswap : st.swap_layout_depth = 0) (hfloat : st.floating_depth = 0)
    (hcp : st.current_pane = none) :
    pstep st ("tab name=\"".toList ++ nm ++ ['"', ' ', '\x7b'])
      = { st with current_tab := some (String.mk nm),
                  current_tab_index := st.current_tab_index + 1,
                  tab_focused := false,
                  pane_index_in_tab := 0 } := by
  have hstrip : pyStrip ("tab name=\"".toList ++ nm ++ ['"', ' ', '\x7b'])
      = "tab name=\"".toList ++ nm ++ ['"', ' ', '\x7b'] := by
    rw [show ("tab name=\"".toList ++ nm ++ ['"', ' ', '\x7b'])
      = 't' :: (("ab name=\"".toList ++ nm) ++ ['"', ' ', '\x7b']) from rfl]
    rw [show ("ab name=\"".toList ++ nm) ++ ['"', ' ', '\x7b']
      = (("ab name=\"".toList ++ nm) ++ ['"', ' ']) ++ ['\x7b'] from
      by simp [List.append_assoc]]
    rw [pyStrip_cons_concat 't' _ '\x7b' (by decide) (by decide)]
  have hb1 : ("swap_tiled_layout".toList).isPrefixOf
      ("tab name=\"".toList ++ nm ++ ['"', ' ', '\x7b']) = false := rfl
  have hb2 : ("swap_floating_layout".toList).isPrefixOf
      ("tab name=\"".toList ++ nm ++ ['"', ' ', '\x7b']) = false := rfl
  have hb3 : ("new_tab_template".toList).isPrefixOf
      ("tab name=\"".toList ++ nm ++ ['"', ' ', '\x7b']) = false := rfl
  have hb4 : ("floating_panes".toList).isPrefixOf
      ("tab name=\"".toList ++ nm ++ ['"', ' ', '\x7b']) = false := rfl
  simp only [pstep]
  rw [hstrip]
  simp only [hb1, hb2, hb3, hb4, hswap, hfloat, hcp]
  rw [tabSearch_tab_line nm hnm hq]
  simp [hswap, hfloat, hcp]

theorem isPaneStart_render (p : PaneSpec) :
    isPaneStart (renderPaneLine p) = true := by
  rcases p with ⟨cmd, nm⟩
  cases cmd <;> cases nm <;> rfl

theorem pyStrip_pane_line (p : PaneSpec) :
    pyStrip (renderPaneLine p) = renderPaneLine p := by
  rcases p with ⟨cmd, nm⟩
  cases cmd with
  | none =>
    cases nm with
    | none => decide
    | some n =>
      have hform : renderPaneLine ⟨none, some n⟩
          = 'p' :: (("ane name=\"".toList ++ n.toList) ++ ['"']) := by
        simp [renderPaneLine, List.append_assoc]
      rw [hform, pyStrip_cons_concat 'p' _ '"' (by decide) (by decide)]
  | some c =>
    cases nm with
    | none =>
      have hform : renderPaneLine ⟨some c, none⟩
          = 'p' :: (("ane command=\"".toList ++ c.toList) ++ ['"']) := by
        simp [renderPaneLine, List.append_assoc]
      rw [hform, pyStrip_cons_concat 'p' _ '"' (by decide) (by decide)]
    | some n =>
      have hform : renderPaneLine ⟨some c, some n⟩
          = 'p' :: ((("ane command=\"".toList ++ c.toList)
              ++ ("\" name=\"".toList ++ n.toList)) ++ ['"']) := by
        simp [renderPaneLine, List.append_assoc]
      rw [hform, pyStrip_cons_concat 'p' _ '"' (by decide) (by decide)]

theorem goodChars_spec (l : List Char) (hg : goodChars l = true) :
    ∀ c ∈ l, c ≠ '"' ∧ c ≠ '\x7b' ∧ c ≠ '\x7d' ∧ c ≠ '\n' := by
  intro c hc
  have := List.all_eq_true.mp hg c hc
  simp only [Bool.and_eq_true, decide_eq_true_eq] at this
  exact ⟨this.1.1.1, this.1.1.2, this.1.2, this.2⟩

theorem renderPaneLine_no_brace (p : PaneSpec) (hg : goodPaneSpec p = true) :
    (renderPaneLine p).contains '\x7b' = false := by
  rcases p with ⟨cmd, nm⟩
  have hmem : ('\x7b') ∉ renderPaneLine ⟨cmd, nm⟩ := by
    unfold renderPaneLine goodPaneSpec at *
    intro hm
    rcases List.mem_append.mp hm with hm1 | hm2
    · rcases List.mem_append.mp hm1 with hm0 | hmc
      · revert hm0
        decide
      · cases cmd with
        | none => simp at hmc
        | some c =>
          have hgc : goodChars c.toList = true := by
            have := (Bool.and_eq_true_iff.mp
              (Bool.and_eq_true_iff.mp (Bool.and_eq_true_iff.mp hg).1).1).1
            exact this
          rcases List.mem_append.mp hmc with hm3 | hm4
          · rcases List.mem_append.mp hm3 with hm5 | hm6
            · revert hm5
              decide
            · exact (goodChars_spec _ hgc _ hm6).2.1 rfl
          · simp at hm4
    · cases nm with
      | none => simp at hm2
      | some n =>
        have hgn : goodChars n.toList = true := by
          have := (Bool.and_eq_true_iff.mp
            (Bool.and_eq_true_iff.mp hg).1).2
          exact (Bool.and_eq_true_iff.mp this).1
        rcases List.mem_append.mp hm2 with hm3 | hm4
        · rcases List.mem_append.mp hm3 with hm5 | hm6
          · revert hm5
            decide
          · exact (goodChars_spec _ hgn _ hm6).2.1 rfl
        · simp at hm4
  simpa using hmem

theorem pstep_pane_line_core (st : PState) (line : List Char)
    (hswap : st.swap_layout_depth = 0) (hfloat : st.floating_depth = 0)
    (hcp : st.current_pane = none)
    (hstrip : pyStrip line = line)
    (hb1 : ("swap_tiled_layout".toList).isPrefixOf line = false)
    (hb2 : ("swap_floating_layout".toList).isPrefixOf line = false)
    (hb3 : ("new_tab_template".toList).isPrefixOf line = false)
    (hb4 : ("floating_panes".toList).isPrefixOf line = false)
    (htab : tabSearch line = none)
    (hps : isPaneStart line = true)
    (hbrace : line.contains '\x7b' = false) :
    pstep st line
      = { st with panes := st.panes ++ [topPaneInfo line st.current_tab
                    st.current_tab_index st.tab_focused st.pane_index_in_tab
                    false],
                  pane_index_in_tab := st.pane_index_in_tab + 1 } := by
  simp only [pstep]
  rw [hstrip]
  rw [if_neg (by rw [hb1, hb2]; decide)]
  rw [if_neg (by rw [hswap]; decide)]
  rw [if_neg (by rw [hb3]; decide)]
  rw [if_neg (by rw [hb4]; simp)]
  rw [if_neg (by rw [hfloat]; simp)]
  rw [if_neg (by rw [htab]; simp)]
  simp only [hcp]
  rw [if_pos hps]
  rw [if_neg (by rw [hbrace]; decide)]
  simp [hfloat]

theorem pstep_inert_line (st : PState) (line : List Char)
    (hswap : st.swap_layout_depth = 0) (hfloat : st.floating_depth = 0)
    (hcp : st.current_pane = none)
    (hstrip : pyStrip line = line)
    (hb1 : ("swap_tiled_layout".toList).isPrefixOf line = false)
    (hb2 : ("swap_floating_layout".toList).isPrefixOf line = false)
    (hb3 : ("new_tab_template".toList).isPrefixOf line = false)
    (hb4 : ("floating_panes".toList).isPrefixOf line = false)
    (htab : tabSearch line = none)
    (hps : isPaneStart line = false) :
    pstep st line = st := by
  simp only [pstep]
  rw [hstrip]
  rw [if_neg (by rw [hb1, hb2]; decide)]
  rw [if_neg (by rw [hswap]; decide)]
  rw [if_neg (by rw [hb3]; decide)]
  rw [if_neg (by rw [hb4]; simp)]
  rw [if_neg (by rw [hfloat]; simp)]
  rw [if_neg (by rw [htab]; simp)]
  simp only [hcp]
  rw [if_neg (by rw [hps]; decide)]

theorem pstep_pane_spec_line (st : PState) (p : PaneSpec)
    (hg : goodPaneSpec p = true)
    (hswap : st.swap_layout_depth = 0) (hfloat : st.floating_depth = 0)
    (hcp : st.current_pane = none) :
    pstep st (renderPaneLine p)
      = { st with panes := st.panes ++ [topPaneInfo (renderPaneLine p)
                    st.current_tab st.current_tab_index st.tab_focused
                    st.pane_index_in_tab false],
                  pane_index_in_tab := st.pane_index_in_tab + 1 } := by
  have htab : tabSearch (renderPaneLine p) = none := by
    have := (Bool.and_eq_true_iff.mp hg).2
    exact eq_of_beq this
  exact pstep_pane_line_core st (renderPaneLine p) hswap hfloat hcp
    (pyStrip_pane_line p) rfl rfl rfl rfl htab (isPaneStart_render p)
    (renderPaneLine_no_brace p hg)

theorem pstep_close_line (st : PState)
    (hswap : st.swap_layout_depth = 0) (hfloat : st.floating_depth = 0)
    (hcp : st.current_pane = none) :
    pstep st ['\x7d'] = st :=
  pstep_inert_line st ['\x7d'] hswap hfloat hcp (by decide) rfl rfl rfl rfl
    rfl rfl

theorem pstep_layout_line (st : PState)
    (hswap : st.swap_layout_depth = 0) (hfloat : st.floating_depth = 0)
    (hcp : st.current_pane = none) :
    pstep st ("layout \x7b".toList) = st :=
  pstep_inert_line st ("layout \x7b".toList) hswap hfloat hcp (by decide)
    rfl rfl rfl rfl (by decide) rfl

theorem fold_pane_lines (ps : List PaneSpec) (st : PState)
    (hg : ps.all goodPaneSpec = true)
    (hswap : st.swap_layout_depth = 0) (hfloat : st.floating_depth = 0)
    (hcp : st.current_pane = none) :
    parseLinesSt st (ps.map renderPaneLine)
      = { st with panes := st.panes ++ expectedTabPanes st.current_tab
                    st.current_tab_index st.tab_focused st.pane_index_in_tab
                    ps,
                  pane_index_in_tab := st.pane_index_in_tab + ps.length } := by
  induction ps generalizing st with
  | nil =>
    simp [parseLinesSt, expectedTabPanes]
  | cons p rest ih =>
    have hgp : goodPaneSpec p = true := by
      rw [List.all_cons] at hg
      exact (Bool.and_eq_true_iff.mp hg).1
    have hgrest : rest.all goodPaneSpec = true := by
      rw [List.all_cons] at hg
      exact (Bool.and_eq_true_iff.mp hg).2
    show parseLinesSt (pstep st (renderPaneLine p)) (rest.map renderPaneLine)
      = _
    rw [pstep_pane_spec_line st p hgp hswap hfloat hcp]
    have hstep := ih { st with
        panes := st.panes ++ [topPaneInfo (renderPaneLine p) st.current_tab
                  st.current_tab_index st.tab_focused st.pane_index_in_tab
                  false],
        pane_index_in_tab := st.pane_index_in_tab + 1 }
      hgrest hswap hfloat hcp
    rw [hstep]
    have hlen : st.pane_index_in_tab + 1 + rest.length
        = st.pane_index_in_tab + (rest.length + 1) := by omega
    simp [expectedTabPanes, List.append_assoc, hlen]

theorem parseLines_close (st : PState)
    (hswap : st.swap_layout_depth = 0) (hfloat : st.floating_depth = 0)
    (hcp : st.current_pane = none) :
    parseLinesSt st [['\x7d']] = st :=
  pstep_close_line st hswap hfloat hcp

theorem fold_tab_lines (t : TabSpec) (st : PState)
    (hg : goodTabSpec t = true)
    (hswap : st.swap_layout_depth = 0) (hfloat : st.floating_depth = 0)
    (hcp : st.current_pane = none) :
    parseLinesSt st (renderTabLines t)
      = { st with current_tab := some t.name,
                  current_tab_index := st.current_tab_index + 1,
                  tab_focused := false,
                  pane_index_in_tab := t.panes.length,
                  panes := st.panes ++ expectedTabPanes (some t.name)
                    (st.current_tab_index + 1) false 0 t.panes } := by
  have hgc : goodChars t.name.toList = true :=
    (Bool.and_eq_true_iff.mp (Bool.and_eq_true_iff.mp hg).1).1
  have hne : t.name.toList ≠ [] := by
    have := (Bool.and_eq_true_iff.mp (Bool.and_eq_true_iff.mp hg).1).2
    intro he
    rw [he] at this
    simp at this
  have hq : ∀ c ∈ t.name.toList, c ≠ '"' := fun c hc =>
    (goodChars_spec _ hgc c hc).1
  have hps : t.panes.all goodPaneSpec = true := (Bool.and_eq_true_iff.mp hg).2
  show parseLinesSt (pstep st ("tab name=\"".toList ++ t.name.toList
    ++ ['"', ' ', '\x7b'])) (t.panes.map renderPaneLine ++ [['\x7d']]) = _
  rw [pstep_tab_line st t.name.toList hne hq hswap hfloat hcp]
  rw [show String.mk t.name.toList = t.name from rfl]
  rw [parseLinesSt_append]
  have hstep := fold_pane_lines t.panes
    { st with current_tab := some t.name,
              current_tab_index := st.current_tab_index + 1,
              tab_focused := false,
              pane_index_in_tab := 0 }
    hps hswap hfloat hcp
  rw [hstep]
  simp [parseLines_close, hswap, hfloat, hcp]

theorem fold_dump_tabs (ts : List TabSpec) (st : PState)
    (hts : ts.all goodTabSpec = true)
    (hswap : st.swap_layout_depth = 0) (hfloat : st.floating_depth = 0)
    (hcp : st.current_pane = none) :
    ∃ ct tf pit,
      parseLinesSt st ((ts.map renderTabLines).flatten)
        = { st with current_tab := ct,
                    current_tab_index := st.current_tab_index + ts.length,
                    tab_focused := tf,
                    pane_index_in_tab := pit,
                    panes := st.panes
                      ++ expectedDumpPanes st.current_tab_index ts } := by
  induction ts generalizing st with
  | nil =>
    refine ⟨st.current_tab, st.tab_focused, st.pane_index_in_tab, ?_⟩
    simp [expectedDumpPanes, parseLinesSt]
  | cons t rest ih =>
    have hgt : goodTabSpec t = true := by
      rw [List.all_cons] at hts
      exact (Bool.and_eq_true_iff.mp hts).1
    have hgrest : rest.all goodTabSpec = true := by
      rw [List.all_cons] at hts
      exact (Bool.and_eq_true_iff.mp hts).2
    rw [show ((t :: rest).map renderTabLines).flatten
      = renderTabLines t ++ (rest.map renderTabLines).flatten from by simp]
    rw [parseLinesSt_append]
    rw [fold_tab_lines t st hgt hswap hfloat hcp]
    have hrec := ih { st with
        current_tab := some t.name,
        current_tab_index := st.current_tab_index + 1,
        tab_focused := false,
        pane_index_in_tab := t.panes.length,
        panes := st.panes ++ expectedTabPanes (some t.name)
          (st.current_tab_index + 1) false 0 t.panes }
      hgrest hswap hfloat hcp
    obtain ⟨ct, tf, pit, hrec⟩ := hrec
    refine ⟨ct, tf, pit, ?_⟩
    rw [hrec]
    have hcti : st.current_tab_index + 1 + rest.length
        = st.current_tab_index + (rest.length + 1) := by omega
    simp [expectedDumpPanes, List.append_assoc, hcti]

theorem renderPaneLine_no_newline (p : PaneSpec) (hg : goodPaneSpec p = true) :
    ('\n') ∉ renderPaneLine p := by
  rcases p with ⟨cmd, nm⟩
  unfold renderPaneLine goodPaneSpec at *
  intro hm
  rcases List.mem_append.mp hm with hm1 | hm2
  · rcases List.mem_append.mp hm1 with hm0 | hmc
    · revert hm0
      decide
    · cases cmd with
      | none => simp at hmc
      | some c =>
        have hgc : goodChars c.toList = true := by
          have := (Bool.and_eq_true_iff.mp
            (Bool.and_eq_true_iff.mp (Bool.and_eq_true_iff.mp hg).1).1).1
          exact this
        rcases List.mem_append.mp hmc with hm3 | hm4
        · rcases List.mem_append.mp hm3 with hm5 | hm6
          · revert hm5
            decide
          · exact (goodChars_spec _ hgc _ hm6).2.2.2 rfl
        · simp at hm4
  · cases nm with
    | none => simp at hm2
    | some n =>
      have hgn : goodChars n.toList = true := by
        have := (Bool.and_eq_true_iff.mp (Bool.and_eq_true_iff.mp hg).1).2
        exact (Bool.and_eq_true_iff.mp this).1
      rcases List.mem_append.mp hm2 with hm3 | hm4
      · rcases List.mem_append.mp hm3 with hm5 | hm6
        · revert hm5
          decide
        · exact (goodChars_spec _ hgn _ hm6).2.2.2 rfl
      · simp at hm4

theorem renderTabLines_no_newline (t : TabSpec) (hg : goodTabSpec t = true) :
    ∀ l ∈ renderTabLines t, ('\n') ∉ l := by
  have hgc : goodChars t.name.toList = true :=
    (Bool.and_eq_true_iff.mp (Bool.and_eq_true_iff.mp hg).1).1
  have hps := (Bool.and_eq_true_iff.mp hg).2
  intro l hl
  rcases List.mem_cons.mp hl with rfl | hl2
  · intro hm
    rcases List.mem_append.mp hm with hm1 | hm2
    · rcases List.mem_append.mp hm1 with hm3 | hm4
      · revert hm3
        decide
      · exact (goodChars_spec _ hgc _ hm4).2.2.2 rfl
    · revert hm2
      decide
  · rcases List.mem_append.mp hl2 with hm | hm
    · rcases List.mem_map.mp hm with ⟨p, hp, rfl⟩
      exact renderPaneLine_no_newline p
        (List.all_eq_true.mp hps p hp)
    · rcases List.mem_singleton.mp hm with rfl
      simp

theorem renderDumpLines_no_newline (ts : List TabSpec)
    (hts : ts.all goodTabSpec = true) :
    ∀ l ∈ renderDumpLines ts, ('\n') ∉ l := by
  intro l hl
  rcases List.mem_cons.mp hl with rfl | hl2
  · decide
  · rcases List.mem_append.mp hl2 with hm | hm
    · rcases List.mem_flatten.mp hm with ⟨ll, hll, hlm⟩
      rcases List.mem_map.mp hll with ⟨t, ht, rfl⟩
      exact renderTabLines_no_newline t (List.all_eq_true.mp hts t ht) l hlm
    · rcases List.mem_singleton.mp hm with rfl
      simp

theorem expectedTabPanes_map (tab : Option String) (ti : Nat) (tf : Bool)
    (k : Nat) (ps : List PaneSpec) :
    (expectedTabPanes tab ti tf k ps).map (fun p => (p.tab_index, p.pane_index))
      = (List.range ps.length).map (fun j => (ti, k + j)) := by
  induction ps generalizing k with
  | nil => rfl
  | cons p rest ih =>
    have harith : ∀ j : Nat, k + 1 + j = k + (j + 1) := fun j => by omega
    simp [expectedTabPanes, topPaneInfo, ih (k + 1),
      List.range_succ_eq_map, List.map_map, Function.comp, harith]

theorem expectedTabPanes_length (tab : Option String) (ti : Nat) (tf : Bool)
    (k : Nat) (ps : List PaneSpec) :
    (expectedTabPanes tab ti tf k ps).length = ps.length := by
  induction ps generalizing k with
  | nil => rfl
  | cons p rest ih => simp [expectedTabPanes, ih (k + 1)]

theorem expectedDumpPanes_map (i : Nat) (ts : List TabSpec) :
    (expectedDumpPanes i ts).map (fun p => (p.tab_index, p.pane_index))
      = expectedIndexPairs i ts := by
  induction ts generalizing i with
  | nil => rfl
  | cons t rest ih =>
    simp [expectedDumpPanes, expectedIndexPairs, List.map_append,
      expectedTabPanes_map, ih (i + 1)]

theorem expectedDumpPanes_length (i : Nat) (ts : List TabSpec) :
    (expectedDumpPanes i ts).length = (ts.map (fun t => t.panes.length)).sum := by
  induction ts generalizing i with
  | nil => rfl
  | cons t rest ih =>
    simp [expectedDumpPanes, List.length_append, expectedTabPanes_length,
      ih (i + 1)]

/-- C4: for every structured raw dump — tabs rendered in order, each with
its top-level pane declarations, no floating panes and no template
sections — the parser returns exactly one descriptor per pane declaration
(N in total), partitioned by tab in dump order, and within tab `i`
(1-based) the assigned ordinals are exactly `0..count-1` in first-seen
order. -/
theorem parse_render_tab_pane_ordinals (ts : List TabSpec)
    (hts : ts.all goodTabSpec = true) :
    (parse_layout_panes (String.mk (joinNL (renderDumpLines ts)))).map
        (fun p => (p.tab_index, p.pane_index))
      = expectedIndexPairs 0 ts
    ∧ (parse_layout_panes (String.mk (joinNL (renderDumpLines ts)))).length
      = (ts.map (fun t => t.panes.length)).sum := by
  have hne : renderDumpLines ts ≠ [] := by simp [renderDumpLines]
  rw [parse_eq_parseLines _ hne (renderDumpLines_no_newline ts hts)]
  rw [show renderDumpLines ts = "layout \x7b".toList
    :: ((ts.map renderTabLines).flatten ++ [['\x7d']]) from rfl]
  rw [show parseLinesSt initPState ("layout \x7b".toList
      :: ((ts.map renderTabLines).flatten ++ [['\x7d']]))
    = parseLinesSt (pstep initPState ("layout \x7b".toList))
        ((ts.map renderTabLines).flatten ++ [['\x7d']]) from rfl]
  rw [pstep_layout_line initPState rfl rfl rfl]
  rw [parseLinesSt_append]
  obtain ⟨ct, tf, pit, hfold⟩ := fold_dump_tabs ts initPState hts rfl rfl rfl
  rw [hfold]
  have hclose := parseLines_close { initPState with
      current_tab := ct,
      current_tab_index := initPState.current_tab_index + ts.length,
      tab_focused := tf,
      pane_index_in_tab := pit,
      panes := initPState.panes
        ++ expectedDumpPanes initPState.current_tab_index ts }
    rfl rfl rfl
  rw [hclose]
  simp only [initPState, List.nil_append]
  exact ⟨expectedDumpPanes_map 0 ts, expectedDumpPanes_length 0 ts⟩

theorem parse_render_tab_pane_ordinals_witness :
    (parse_layout_panes (String.mk (joinNL (renderDumpLines c4Tabs)))).map
        (fun p => (p.tab_index, p.pane_index))
      = expectedIndexPairs 0 c4Tabs
    ∧ (parse_layout_panes (String.mk (joinNL (renderDumpLines c4Tabs)))).length
      = (c4Tabs.map (fun t => t.panes.length)).sum :=
  parse_render_tab_pane_ordinals c4Tabs (by decide)
